import Mathlib

/-!
# Mesen HD pack data (`Core/HdData.h`)

A shallow embedding of the tile key, its hash / equality pair, the condition
evaluator, the replacement tile (condition list, pixel decoding, blank
detection), the textual form of a condition and the destructor of the pack of
`Core/HdData.h`, together with the properties of the design document that
concern them.

Conventions of the embedding.

* `uint32_t` / `uint8_t` values are natural numbers; the arithmetic of the
  source is truncated explicitly (`u32`, `u64`).  `int32_t` / `int` values are
  integers, wrapped to two's complement by `i32` after every operation.
* `HdTileKey.WF` records the ranges the C++ types enforce (a 32-bit palette
  word, sixteen tile bytes, a 32-bit tile index).
* The two places where the source reinterprets an object as raw bytes
  (`(uint8_t*)&PaletteColors` and `(uint8_t*)&key`) are modelled by the byte
  image of the object on a little-endian machine (`le32`, `le64`,
  `HdTileKey.bytes`).
* The screen grid `HdPpuPixelInfo*` is a list; reading it is an
  `Option`-valued lookup, so that a read outside the array is visible as
  `none`.  The same holds for the reads of `TileData`, of `HdTileData` and of
  the palette table in `ToRgb` and `UpdateBlankTileFlag`.
* Loops are recursive functions over the list of values the loop variable
  takes.
* The renderer's global palette table is an explicit argument (`ToRgb`) or an
  explicit state (the destructor of `HdPackData`).
-/

namespace HdData

/-! ## Machine arithmetic -/

/-- Truncation to `uint32_t`. -/
def u32 (n : Nat) : Nat := n % 4294967296

/-- Truncation to `uint64_t`. -/
def u64 (n : Nat) : Nat := n % 18446744073709551616

/-- Wrap an integer to `int32_t` (two's complement). -/
def i32 (z : Int) : Int := (z + 2147483648) % 4294967296 - 2147483648

/-- Conversion of an `int32_t` to `uint32_t` (usual arithmetic conversions). -/
def toU32 (z : Int) : Nat := (z % 4294967296).toNat

/-- The four bytes of a `uint32_t` in memory order (little endian). -/
def le32 (v : Nat) : List Nat :=
  [v % 256, v / 256 % 256, v / 65536 % 256, v / 16777216 % 256]

/-- The eight bytes of a `uint64_t` in memory order (little endian). -/
def le64 (v : Nat) : List Nat :=
  le32 (v % 4294967296) ++ le32 (v / 4294967296 % 4294967296)

/-- The load `*((uint32_t*)(key + off))`: four bytes read as one little-endian word. -/
def readU32 (mem : List Nat) (off : Nat) : Nat :=
  mem.getD off 0 + 256 * mem.getD (off + 1) 0 + 65536 * mem.getD (off + 2) 0
    + 16777216 * mem.getD (off + 3) 0

/-- The test `memcmp(a, b, n) == 0`: the first `n` bytes of both regions agree. -/
def memcmpIsZero (a b : List Nat) (n : Nat) : Bool :=
  decide (a.take n = b.take n)

/-! ## `HdTileKey` -/

/-- The C++ `struct HdTileKey` (data members, in declaration order). -/
structure HdTileKey where
  PaletteColors : Nat
  TileData : List Nat
  TileIndex : Nat
  IsChrRamTile : Bool := false
  ForDefaultKey : Bool := false
deriving DecidableEq

namespace HdTileKey

/-- The constant `NoTile = -1` as a `uint32_t`. -/
def NoTile : Nat := 4294967295

/-- Ranges enforced by the C++ field types. -/
def WF (k : HdTileKey) : Prop :=
  k.PaletteColors < 4294967296 ∧ k.TileData.length = 16 ∧
    (∀ b ∈ k.TileData, b < 256) ∧ k.TileIndex < 4294967296

instance (k : HdTileKey) : Decidable k.WF := by
  unfold WF
  infer_instance

/-- The memory image of the key starting at `&PaletteColors`: the palette
word (offsets 0..3), the sixteen tile bytes (offsets 4..19), the tile index
(offsets 20..23). -/
def bytes (k : HdTileKey) : List Nat :=
  le32 k.PaletteColors ++ k.TileData ++ le32 k.TileIndex

/-- `GetKey(defaultKey)`.  The first component is the returned key; the second
is the receiver `*this` after the call (the method is not `const`). -/
def GetKey (self : HdTileKey) (defaultKey : Bool) : HdTileKey × HdTileKey :=
  if defaultKey then
    let copy := self
    let copy := { copy with PaletteColors := 0xFFFFFFFF }
    (copy, self)
  else
    (self, self)

/-- One iteration of the loop body of `CalculateHash`:
`result += word; result = (result << 2) | (result >> 30);` on `uint32_t`. -/
def hashStep (result word : Nat) : Nat :=
  let result := u32 (result + word)
  u32 (result <<< 2) ||| (result >>> 30)

/-- `CalculateHash(key, len)`: the loop `for(i = 0; i < len; i += 4)` runs
`⌈len/4⌉` times; its `j`-th iteration loads the word at `key + 4*j`. -/
def CalculateHash (key : List Nat) (len : Nat) : Nat :=
  (List.range ((len + 3) / 4)).foldl (fun result j => hashStep result (readU32 key (4 * j))) 0

/-- The 64-bit composite `TileIndex | ((uint64_t)PaletteColors << 32)`. -/
def compositeKey (k : HdTileKey) : Nat :=
  k.TileIndex ||| u64 (k.PaletteColors <<< 32)

/-- `GetHashCode()`. -/
def GetHashCode (k : HdTileKey) : Nat :=
  if k.IsChrRamTile then
    CalculateHash k.bytes 20
  else
    let key := compositeKey k
    CalculateHash (le64 key) 8

/-- `operator==(other)`. -/
def operatorEq (self other : HdTileKey) : Bool :=
  if self.IsChrRamTile then
    memcmpIsZero self.bytes other.bytes 20
  else
    let key := compositeKey self
    let otherKey := compositeKey other
    key == otherKey

/-- `IsSpriteTile()`. -/
def IsSpriteTile (k : HdTileKey) : Bool :=
  (k.PaletteColors &&& 0xFF000000) == 0xFF000000

end HdTileKey

/-! ## Specification-side hash -/

/-- Rotation of a 32-bit word to the left by two bits, as arithmetic: the top
two bits move to the bottom. -/
def specRotl2 (w : Nat) : Nat := (w * 4) % 4294967296 + w / 1073741824

/-- The documented fold: starting from 0, add each word modulo `2^32` and
rotate the accumulator left by two bits after each addition. -/
def specHashFold (words : List Nat) : Nat :=
  words.foldl (fun acc w => specRotl2 ((acc + w) % 4294967296)) 0

/-- The little-endian 32-bit word formed from `TileData[off .. off+3]`. -/
def tileWord (td : List Nat) (off : Nat) : Nat :=
  td.getD off 0 + 256 * td.getD (off + 1) 0 + 65536 * td.getD (off + 2) 0
    + 16777216 * td.getD (off + 3) 0

/-! ## Screen grid and conditions -/

/-- The C++ `struct HdPpuTileInfo : public HdTileKey`. -/
structure HdPpuTileInfo extends HdTileKey where
  OffsetX : Nat := 0
  OffsetY : Nat := 0
  HorizontalMirroring : Bool := false
  VerticalMirroring : Bool := false
  BackgroundPriority : Bool := false
  BgColorIndex : Nat := 0
  SpriteColorIndex : Nat := 0
  BgColor : Nat := 0
  SpriteColor : Nat := 0
  NametableValue : Nat := 0
deriving DecidableEq

/-- The C++ `struct HdPpuPixelInfo`. -/
structure HdPpuPixelInfo where
  Tile : HdPpuTileInfo
  Sprite : HdPpuTileInfo
deriving DecidableEq

/-- The C++ `enum class HdPackConditionType`. -/
inductive HdPackConditionType where
  | TileAtPosition
  | SpriteAtPosition
  | TileNearby
  | SpriteNearby
deriving DecidableEq

/-- Modelled from the spec: `PPU::PixelCount`, declared in `PPU.h` (not part of
the sources at hand): the number of entries of the screen grid, whose width is
256 and whose height is the 240 lines of the display. -/
def PixelCount : Nat := 256 * 240

/-- The C++ `struct HdPackCondition` (data members; the member `Type` is
called `CondType` here). -/
structure HdPackCondition where
  Name : String
  CondType : HdPackConditionType
  TileX : Int
  TileY : Int
  PaletteColors : Nat
  TileIndex : Int
  TileData : List Nat
deriving DecidableEq

namespace HdPackCondition

/-- Ranges enforced by the C++ field types of a condition. -/
def WF (c : HdPackCondition) : Prop :=
  (-2147483648 ≤ c.TileX ∧ c.TileX < 2147483648) ∧
  (-2147483648 ≤ c.TileY ∧ c.TileY < 2147483648) ∧
  c.PaletteColors < 4294967296 ∧
  (-2147483648 ≤ c.TileIndex ∧ c.TileIndex < 2147483648) ∧
  c.TileData.length = 16 ∧ (∀ b ∈ c.TileData, b < 256)

instance (c : HdPackCondition) : Decidable c.WF := by
  unfold WF
  infer_instance

/-- The index computed by the `TileAtPosition` / `SpriteAtPosition` case:
`int pixelIndex = (TileY << 8) + TileX;`. -/
def absoluteIndex (c : HdPackCondition) : Int :=
  i32 (i32 (c.TileY * 256) + c.TileX)

/-- The index computed by the `TileNearby` / `SpriteNearby` case:
`int pixelIndex = ((y + TileY) << 8) + TileX + x;`. -/
def nearbyIndex (c : HdPackCondition) (x y : Int) : Int :=
  i32 (i32 (i32 (i32 (y + c.TileY) * 256) + c.TileX) + x)

/-- `CheckCondition(screenTiles, x, y)`.  The result is `none` when the
evaluation reads `screenTiles` outside the list. -/
def CheckCondition (c : HdPackCondition) (screenTiles : List HdPpuPixelInfo) (x y : Int) :
    Option Bool :=
  match c.CondType with
  | .TileAtPosition | .SpriteAtPosition =>
    let pixelIndex := c.absoluteIndex
    if pixelIndex < 0 ∨ pixelIndex > (PixelCount : Int) then
      some false
    else
      match screenTiles[pixelIndex.toNat]? with
      | none => none
      | some px =>
        let tile := if c.CondType = .TileAtPosition then px.Tile else px.Sprite
        if c.TileIndex ≥ 0 then
          some (tile.PaletteColors == c.PaletteColors && tile.TileIndex == toU32 c.TileIndex)
        else
          some (tile.PaletteColors == c.PaletteColors
            && memcmpIsZero tile.TileData c.TileData 16)
  | .TileNearby | .SpriteNearby =>
    let pixelIndex := c.nearbyIndex x y
    if pixelIndex < 0 ∨ pixelIndex > (PixelCount : Int) then
      some false
    else
      match screenTiles[pixelIndex.toNat]? with
      | none => none
      | some px =>
        let tile := if c.CondType = .TileNearby then px.Tile else px.Sprite
        if c.TileIndex ≥ 0 then
          some (tile.TileIndex == toU32 c.TileIndex)
        else
          some (memcmpIsZero tile.TileData c.TileData 16)

/-- The grid entry a condition looks at: `.Tile` for the tile kinds, `.Sprite`
for the sprite kinds. -/
def entry (c : HdPackCondition) (px : HdPpuPixelInfo) : HdPpuTileInfo :=
  match c.CondType with
  | .TileAtPosition | .TileNearby => px.Tile
  | .SpriteAtPosition | .SpriteNearby => px.Sprite

end HdPackCondition

/-- A screen grid as the renderer provides it: exactly `PixelCount` entries,
each holding well-formed tile and sprite keys. -/
def GridWF (grid : List HdPpuPixelInfo) : Prop :=
  grid.length = PixelCount ∧ ∀ px ∈ grid, px.Tile.toHdTileKey.WF ∧ px.Sprite.toHdTileKey.WF

/-! ## Concrete keys used as test inputs -/

/-- A dynamic (CHR-RAM) key: palette 0, blank tile, tile index 1. -/
def exKeyDynamic : HdTileKey :=
  { PaletteColors := 0, TileData := List.replicate 16 0, TileIndex := 1, IsChrRamTile := true }

/-- The same fields as `exKeyDynamic`, as a static (CHR-ROM) key. -/
def exKeyStatic : HdTileKey :=
  { PaletteColors := 0, TileData := List.replicate 16 0, TileIndex := 1, IsChrRamTile := false }

/-- A static key: tile index 7, palette 5, blank tile. -/
def exKeySeven : HdTileKey :=
  { PaletteColors := 5, TileData := List.replicate 16 0, TileIndex := 7 }

/-- A static key with the index and palette of `exKeySeven` and other tile bytes. -/
def exKeySevenOther : HdTileKey :=
  { PaletteColors := 5, TileData := List.replicate 16 255, TileIndex := 7, ForDefaultKey := true }

/-- A dynamic key with a non-trivial bitmap. -/
def exKeyBitmap : HdTileKey :=
  { PaletteColors := 0xFF0F1627,
    TileData := [1, 2, 3, 4, 5, 6, 7, 8, 9, 10, 11, 12, 13, 14, 15, 255],
    TileIndex := 0xFFFFFFFF, IsChrRamTile := true }

/-- A dynamic key with the palette and bitmap of `exKeyBitmap` and another index. -/
def exKeyBitmapOther : HdTileKey :=
  { exKeyBitmap with TileIndex := 3 }

/-- A static key: tile index 0, palette 4. -/
def exCollideA : HdTileKey :=
  { PaletteColors := 4, TileData := List.replicate 16 0, TileIndex := 0 }

/-- A static key: tile index 1, palette 0. -/
def exCollideB : HdTileKey :=
  { PaletteColors := 0, TileData := List.replicate 16 0, TileIndex := 1 }

/-- Replace the palette words of both keys of a grid entry (used to state that a
result does not depend on them). -/
def HdPpuPixelInfo.withPaletteColors (px : HdPpuPixelInfo) (p q : Nat) : HdPpuPixelInfo :=
  { Tile := { px.Tile with PaletteColors := p },
    Sprite := { px.Sprite with PaletteColors := q } }

/-! ## Concrete grids and conditions used as test inputs -/

/-- A blank background tile: palette 0, index 0. -/
def exTileBlank : HdPpuTileInfo :=
  { PaletteColors := 0, TileData := List.replicate 16 0, TileIndex := 0 }

/-- A tile with palette `0xAABBCCDD`, index 7 and a non-trivial bitmap. -/
def exTileSeven : HdPpuTileInfo :=
  { PaletteColors := 0xAABBCCDD,
    TileData := [1, 2, 3, 4, 5, 6, 7, 8, 9, 10, 11, 12, 13, 14, 15, 16],
    TileIndex := 7 }

/-- A grid entry showing the blank tile and no sprite. -/
def exPixelBlank : HdPpuPixelInfo := { Tile := exTileBlank, Sprite := exTileBlank }

/-- A grid entry showing `exTileSeven` and no sprite. -/
def exPixelSeven : HdPpuPixelInfo := { Tile := exTileSeven, Sprite := exTileBlank }

/-- A full screen of blank entries, except entry 773 (row 3, column 5). -/
def exGrid : List HdPpuPixelInfo :=
  (List.replicate PixelCount exPixelBlank).set 773 exPixelSeven

/-- The condition `tileAtPosition,5,3,7,AABBCCDD`. -/
def exCond773 : HdPackCondition :=
  { Name := "c", CondType := .TileAtPosition, TileX := 5, TileY := 3,
    PaletteColors := 0xAABBCCDD, TileIndex := 7, TileData := List.replicate 16 0 }

/-- The condition `tileAtPosition,0,240,7,AABBCCDD`: the first position below the screen. -/
def exCondRow240 : HdPackCondition :=
  { Name := "c", CondType := .TileAtPosition, TileX := 0, TileY := 240,
    PaletteColors := 0xAABBCCDD, TileIndex := 7, TileData := List.replicate 16 0 }

/-- The condition `spriteNearby,0,1,7,AABBCCDD`: the position one row below. -/
def exCondBelow : HdPackCondition :=
  { Name := "c", CondType := .SpriteNearby, TileX := 0, TileY := 1,
    PaletteColors := 0xAABBCCDD, TileIndex := 7, TileData := List.replicate 16 0 }

/-- The condition `tileNearby,1,1,7,12345678`: index 7 with a palette that is not on screen. -/
def exCondNearbyIndex : HdPackCondition :=
  { Name := "c", CondType := .TileNearby, TileX := 1, TileY := 1,
    PaletteColors := 0x12345678, TileIndex := 7, TileData := List.replicate 16 0 }

/-- The condition `tileNearby,1,1,<bitmap of exTileSeven>,12345678`: a bitmap target
with a palette that is not on screen. -/
def exCondNearbyBitmap : HdPackCondition :=
  { Name := "c", CondType := .TileNearby, TileX := 1, TileY := 1,
    PaletteColors := 0x12345678, TileIndex := -1,
    TileData := [1, 2, 3, 4, 5, 6, 7, 8, 9, 10, 11, 12, 13, 14, 15, 16] }

/-! ## Replacement tiles -/

/-- The C++ `struct HdPackTileInfo : public HdTileKey` (data members; the
pointers of `Conditions` are the conditions they point to). -/
structure HdPackTileInfo extends HdTileKey where
  X : Nat := 0
  Y : Nat := 0
  BitmapIndex : Nat := 0
  Brightness : Nat := 255
  DefaultTile : Bool := false
  Blank : Bool := false
  HdTileData : List Nat := []
  ChrBankId : Nat := 0
  Conditions : List HdPackCondition := []
deriving DecidableEq

namespace HdPackTileInfo

/-- The loop of `MatchesCondition` over the remaining conditions: the first
condition that does not hold returns false, the end of the list returns true.
The result is `none` when a condition that is evaluated reads outside the grid. -/
def MatchesConditionLoop (screenTiles : List HdPpuPixelInfo) (x y : Int) :
    List HdPackCondition → Option Bool
  | [] => some true
  | condition :: rest =>
    match condition.CheckCondition screenTiles x y with
    | none => none
    | some false => some false
    | some true => MatchesConditionLoop screenTiles x y rest

/-- `MatchesCondition(screenTiles, x, y)`. -/
def MatchesCondition (t : HdPackTileInfo) (screenTiles : List HdPpuPixelInfo) (x y : Int) :
    Option Bool :=
  MatchesConditionLoop screenTiles x y t.Conditions

end HdPackTileInfo

/-- A replacement tile without conditions. -/
def exTileNoConditions : HdPackTileInfo :=
  { PaletteColors := 0x0F162736, TileData := List.replicate 16 0, TileIndex := 7 }

/-- A replacement tile whose second condition fails on `exGrid` at `(4, 2)` and
whose third condition would read outside the grid. -/
def exTileThreeConditions : HdPackTileInfo :=
  { exTileNoConditions with
    Conditions := [exCond773, { exCondNearbyIndex with TileIndex := 8 }, exCondRow240] }

/-- A replacement tile whose two conditions hold on `exGrid` at `(4, 2)`. -/
def exTileTwoConditions : HdPackTileInfo :=
  { exTileNoConditions with Conditions := [exCond773, exCondNearbyIndex] }

/-- Truncation to `uint8_t`. -/
def u8 (n : Nat) : Nat := n % 256

namespace HdPackTileInfo

/-- The 2-bit colour index of pixel `j` of a row of `ToRgb`:
`((lowByte >> (7 - j)) & 0x01) | (((highByte >> (7 - j)) & 0x01) << 1)`,
stored in a `uint8_t`. -/
def ToRgbColor (lowByte highByte j : Nat) : Nat :=
  u8 (((lowByte >>> (7 - j)) &&& 0x01) ||| (((highByte >>> (7 - j)) &&& 0x01) <<< 1))

/-- The palette index `(PaletteColors >> ((3 - color) * 8)) & 0x3F` of `ToRgb`. -/
def ToRgbPaletteIndex (t : HdPackTileInfo) (color : Nat) : Nat :=
  (t.PaletteColors >>> ((3 - color) * 8)) &&& 0x3F

/-- The body of the inner loop of `ToRgb`: the value pushed for pixel `j` of
the row with bytes `lowByte`, `highByte`.  The table `palette` is the result
of `EmulationSettings::GetRgbPalette()`; reading it is an `Option` lookup. -/
def ToRgbPixel (t : HdPackTileInfo) (palette : List Nat) (lowByte highByte j : Nat) :
    Option Nat :=
  let color := ToRgbColor lowByte highByte j
  if t.IsSpriteTile then
    if color == 0 then some 0x00FFFFFF else palette[t.ToRgbPaletteIndex color]?
  else
    palette[t.ToRgbPaletteIndex color]?

/-- The inner loop `for(uint8_t j = 0; j < 8; j++)` of `ToRgb` over the
remaining values of `j`, pushing onto `rgbBuffer`. -/
def ToRgbInner (t : HdPackTileInfo) (palette : List Nat) (lowByte highByte : Nat)
    (rgbBuffer : List Nat) : List Nat → Option (List Nat)
  | [] => some rgbBuffer
  | j :: js =>
    match t.ToRgbPixel palette lowByte highByte j with
    | none => none
    | some rgbColor => ToRgbInner t palette lowByte highByte (rgbBuffer ++ [rgbColor]) js

/-- The outer loop `for(uint8_t i = 0; i < 8; i++)` of `ToRgb` over the
remaining values of `i`; the reads `TileData[i]`, `TileData[i + 8]` are
`Option` lookups. -/
def ToRgbOuter (t : HdPackTileInfo) (palette : List Nat) (rgbBuffer : List Nat) :
    List Nat → Option (List Nat)
  | [] => some rgbBuffer
  | i :: is =>
    match t.TileData[i]?, t.TileData[i + 8]? with
    | some lowByte, some highByte =>
      match t.ToRgbInner palette lowByte highByte rgbBuffer (List.range 8) with
      | none => none
      | some rgbBuffer => ToRgbOuter t palette rgbBuffer is
    | _, _ => none

/-- `ToRgb()`, with the global palette table as an argument.  The result is
`none` when a read of `TileData` or of the palette table is out of range. -/
def ToRgb (t : HdPackTileInfo) (palette : List Nat) : Option (List Nat) :=
  t.ToRgbOuter palette [] (List.range 8)

end HdPackTileInfo

/-! ## Specification-side pixel decoding -/

/-- Bit `k` of `n`, as 0 or 1. -/
def specBit (n k : Nat) : Nat := if n.testBit k then 1 else 0

/-- The documented colour index of row `r`, column `c`: bit `7-c` of
`TileData[r]` plus twice bit `7-c` of `TileData[r+8]`. -/
def specColor (td : List Nat) (r c : Nat) : Nat :=
  specBit (td.getD r 0) (7 - c) + 2 * specBit (td.getD (r + 8) 0) (7 - c)

/-- The documented pixel of row `r`, column `c`: transparent for colour 0 of a
sprite tile, otherwise the palette entry selected by the colour. -/
def specPixel (t : HdPackTileInfo) (palette : List Nat) (r c : Nat) : Option Nat :=
  let color := specColor t.TileData r c
  if t.IsSpriteTile = true ∧ color = 0 then some 0x00FFFFFF
  else palette[(t.PaletteColors >>> ((3 - color) * 8)) &&& 0x3F]?

/-- The alpha byte (bits 24..31) of a colour. -/
def alphaByte (rgb : Nat) : Nat := (rgb >>> 24) % 256

/-- A sprite tile (top palette byte `0xFF`, selectors `0x0F`, `0x16`, `0x27`)
whose first two rows hold pixels of colours 1, 2 and 3. -/
def exTileSprite : HdPackTileInfo :=
  { PaletteColors := 0xFF0F1627,
    TileData := [0x80, 0x60, 0, 0, 0, 0, 0, 0, 0x40, 0x20, 0, 0, 0, 0, 0, 0],
    TileIndex := 0xFFFFFFFF, IsChrRamTile := true }

/-- The bitmap of `exTileSprite` as a background tile (top palette byte `0x0F`). -/
def exTileBackground : HdPackTileInfo :=
  { exTileSprite with PaletteColors := 0x0F0F1627 }

/-- An opaque palette table: entry `k` is `0xFF000000 + k`. -/
def exPalette : List Nat := (List.range 64).map (fun k => 0xFF000000 + k)

/-- A palette table of 64 grey entries whose alpha byte is zero. -/
def exPaletteNoAlpha : List Nat := List.replicate 64 0x808080

namespace HdPackTileInfo

/-- The loop `for(size_t i = 0; i < HdTileData.size(); i++)` of
`UpdateBlankTileFlag` over the remaining values of `i`: the value assigned to
`Blank`.  The reads `HdTileData[i]`, `HdTileData[0]` are `Option` lookups. -/
def UpdateBlankTileFlagLoop (data : List Nat) : List Nat → Option Bool
  | [] => some true
  | i :: is =>
    match data[i]?, data[0]? with
    | some a, some b => if a != b then some false else UpdateBlankTileFlagLoop data is
    | _, _ => none

/-- `UpdateBlankTileFlag()`: the tile after the call. -/
def UpdateBlankTileFlag (t : HdPackTileInfo) : Option HdPackTileInfo :=
  match UpdateBlankTileFlagLoop t.HdTileData (List.range t.HdTileData.length) with
  | none => none
  | some blank => some { t with Blank := blank }

end HdPackTileInfo

/-- A replacement tile with 64 identical pixels, flagged as not blank. -/
def exTileUniform : HdPackTileInfo :=
  { exTileNoConditions with HdTileData := List.replicate 64 0xFF112233, Blank := false }

/-- The same tile with pixel 63 changed, flagged as blank. -/
def exTileOneOff : HdPackTileInfo :=
  { exTileNoConditions with
    HdTileData := (List.replicate 64 0xFF112233).set 63 0xFF112234, Blank := true }

/-! ## The pack and the global palette table -/

/-- The C++ `struct HdPackData`: the members that are plain data (the
backgrounds, the bitmap files and the two hash maps are left out; owned
pointers are the objects they point to). -/
structure HdPackData where
  Tiles : List HdPackTileInfo := []
  Conditions : List HdPackCondition := []
  Palette : List Nat := []
  PaletteBackup : List Nat := []
  Scale : Nat := 1
  Version : Nat := 0
  OptionFlags : Nat := 0

/-- Modelled from the spec: `EmulationSettings::SetRgbPalette`, declared
outside the sources at hand: the `set(64 entries)` accessor of the renderer's
global colour table, which replaces the table by the 64 entries found at
`paletteBuffer`.  The second argument is the table before the call. -/
def SetRgbPalette (paletteBuffer : List Nat) (_rgbPalette : List Nat) : List Nat :=
  paletteBuffer.take 64

/-- The destructor `~HdPackData()`, as a function of the global palette table
before the call; the result is the table after the call. -/
def HdPackData.destructor (d : HdPackData) (rgbPalette : List Nat) : List Nat :=
  if d.PaletteBackup.length = 0x40 then
    SetRgbPalette d.PaletteBackup rgbPalette
  else
    rgbPalette

/-- A pack that captured the table `exPalette` when it was loaded. -/
def exPackWithBackup : HdPackData := { Palette := exPaletteNoAlpha, PaletteBackup := exPalette }

/-- A pack without palette override: nothing was captured. -/
def exPackNoBackup : HdPackData := { }

/-! ## Target positions of conditions -/

namespace HdPackCondition

/-- The target column: `TileX` for the absolute kinds, `x + TileX` for the
relative kinds. -/
def targetColumn (c : HdPackCondition) (x : Int) : Int :=
  match c.CondType with
  | .TileAtPosition | .SpriteAtPosition => c.TileX
  | .TileNearby | .SpriteNearby => x + c.TileX

/-- The target row: `TileY` for the absolute kinds, `y + TileY` for the
relative kinds. -/
def targetRow (c : HdPackCondition) (y : Int) : Int :=
  match c.CondType with
  | .TileAtPosition | .SpriteAtPosition => c.TileY
  | .TileNearby | .SpriteNearby => y + c.TileY

/-- The value of `pixelIndex` in the case of `CheckCondition` selected by the kind. -/
def pixelIndex (c : HdPackCondition) (x y : Int) : Int :=
  match c.CondType with
  | .TileAtPosition | .SpriteAtPosition => c.absoluteIndex
  | .TileNearby | .SpriteNearby => c.nearbyIndex x y

end HdPackCondition

/-- The condition `tileAtPosition,261,2,7,AABBCCDD`: column 261 of row 2. -/
def exCondColumn261 : HdPackCondition :=
  { Name := "c", CondType := .TileAtPosition, TileX := 261, TileY := 2,
    PaletteColors := 0xAABBCCDD, TileIndex := 7, TileData := List.replicate 16 0 }

/-- The condition `tileAtPosition,5,241,7,AABBCCDD`: a row below the screen. -/
def exCondRow241 : HdPackCondition :=
  { Name := "c", CondType := .TileAtPosition, TileX := 5, TileY := 241,
    PaletteColors := 0xAABBCCDD, TileIndex := 7, TileData := List.replicate 16 0 }

/-- A static key with the palette and tile bytes of `exKeyDynamic` and tile index 2. -/
def exKeyStaticTwo : HdTileKey :=
  { PaletteColors := 0, TileData := List.replicate 16 0, TileIndex := 2, IsChrRamTile := false }

/-! ## Textual form of a condition -/

/-- Modelled from the spec: one hexadecimal digit as written by `HexUtilities`
(declared outside the sources at hand), in upper case. -/
def hexDigit (n : Nat) : Char :=
  if n % 16 < 10 then Char.ofNat (48 + n % 16) else Char.ofNat (55 + n % 16)

/-- Modelled from the spec: `HexUtilities::ToHex(uint8_t)`, the two hexadecimal
digits of a byte (sixteen bytes give the 32-character dump). -/
def ToHexByte (value : Nat) : String :=
  String.mk [hexDigit (value / 16), hexDigit value]

/-- Modelled from the spec: `HexUtilities::ToHex(uint32_t, true)`, the eight
hexadecimal digits of a 32-bit value. -/
def ToHexWord (value : Nat) : String :=
  String.mk [hexDigit (value / 268435456), hexDigit (value / 16777216),
    hexDigit (value / 1048576), hexDigit (value / 65536), hexDigit (value / 4096),
    hexDigit (value / 256), hexDigit (value / 16), hexDigit value]

/-- The stream output `out << n` of an `int32_t`: its decimal digits, with a
leading minus sign when negative. -/
def decimal (z : Int) : String :=
  if z < 0 then "-" ++ Nat.repr z.natAbs else Nat.repr z.toNat

/-- `HdPackCondition::ToString()`. -/
def HdPackCondition.ToString (c : HdPackCondition) : String :=
  let out := "<condition>" ++ c.Name ++ ","
  let out := out ++
    (match c.CondType with
      | .TileAtPosition => "tileAtPosition"
      | .SpriteAtPosition => "spriteAtPosition"
      | .TileNearby => "tileNearby"
      | .SpriteNearby => "spriteNearby")
  let out := out ++ ","
  let out := out ++ decimal c.TileX ++ ","
  let out := out ++ decimal c.TileY ++ ","
  let out :=
    if c.TileIndex ≥ 0 then
      out ++ decimal c.TileIndex ++ ","
    else
      (List.range 16).foldl (fun out i => out ++ ToHexByte (c.TileData.getD i 0)) out
  out ++ ToHexWord c.PaletteColors

/-- The number of comma-separated fields of a record after its 11-character
`<condition>` tag. -/
def conditionFields (record : String) : Nat :=
  ((record.toList.drop 11).filter (fun ch => ch == ',')).length + 1

/-! ## Auxiliary facts about the machine arithmetic -/

theorem readU32_le32 (v : Nat) (h : v < 4294967296) : readU32 (le32 v) 0 = v := by
  simp only [readU32, le32, List.getD_cons_zero, List.getD_cons_succ]
  omega

theorem le32_inj (v w : Nat) (hv : v < 4294967296) (hw : w < 4294967296)
    (h : le32 v = le32 w) : v = w := by
  simp only [le32, List.cons.injEq, and_true] at h
  omega

theorem le32_length (v : Nat) : (le32 v).length = 4 := rfl

theorem hashStep_eq_spec (r w : Nat) :
    HdTileKey.hashStep r w = specRotl2 ((r + w) % 4294967296) := by
  simp only [HdTileKey.hashStep, u32, specRotl2]
  have ht : (r + w) % 4294967296 < 4294967296 := Nat.mod_lt _ (by norm_num)
  generalize (r + w) % 4294967296 = t at ht
  rw [Nat.shiftLeft_eq, Nat.shiftRight_eq_div_pow]
  have h1 : t * 2 ^ 2 % 4294967296 = 2 ^ 2 * (t % 1073741824) := by omega
  have h2 : t * 4 % 4294967296 = 2 ^ 2 * (t % 1073741824) := by omega
  have h3 : t / 2 ^ 30 < 2 ^ 2 := by omega
  have h4 : t / 1073741824 = t / 2 ^ 30 := by norm_num
  rw [h1, h2, h4]
  exact (Nat.mul_add_lt_is_or h3 _).symm

theorem compositeKey_eq (k : HdTileKey) (h : k.WF) :
    k.compositeKey = 4294967296 * k.PaletteColors + k.TileIndex := by
  obtain ⟨hp, -, -, hi⟩ := h
  simp only [HdTileKey.compositeKey, u64]
  rw [Nat.shiftLeft_eq, Nat.or_comm]
  have h1 : k.PaletteColors * 2 ^ 32 % 18446744073709551616 = 2 ^ 32 * k.PaletteColors := by
    omega
  have h2 : k.TileIndex < 2 ^ 32 := by omega
  have h3 : 4294967296 * k.PaletteColors = 2 ^ 32 * k.PaletteColors := by norm_num
  rw [h1, h3]
  exact (Nat.mul_add_lt_is_or h2 _).symm

theorem list_length_sixteen (l : List Nat) (h : l.length = 16) :
    ∃ b0 b1 b2 b3 b4 b5 b6 b7 b8 b9 b10 b11 b12 b13 b14 b15,
      l = [b0, b1, b2, b3, b4, b5, b6, b7, b8, b9, b10, b11, b12, b13, b14, b15] := by
  match l, h with
  | [b0, b1, b2, b3, b4, b5, b6, b7, b8, b9, b10, b11, b12, b13, b14, b15], _ =>
    exact ⟨b0, b1, b2, b3, b4, b5, b6, b7, b8, b9, b10, b11, b12, b13, b14, b15, rfl⟩

/-- The hash of a dynamic key is the five-word fold. -/
theorem GetHashCode_dynamic (k : HdTileKey) (h : k.WF) (hd : k.IsChrRamTile = true) :
    k.GetHashCode = specHashFold [k.PaletteColors, tileWord k.TileData 0,
      tileWord k.TileData 4, tileWord k.TileData 8, tileWord k.TileData 12] := by
  obtain ⟨hp, hl, -, -⟩ := h
  obtain ⟨b0, b1, b2, b3, b4, b5, b6, b7, b8, b9, b10, b11, b12, b13, b14, b15, htd⟩ :=
    list_length_sixteen _ hl
  have hr := readU32_le32 _ hp
  simp only [readU32, le32, List.getD_cons_zero, List.getD_cons_succ] at hr
  simp only [HdTileKey.GetHashCode, hd, if_true, HdTileKey.CalculateHash, HdTileKey.bytes, htd,
    specHashFold, tileWord, hashStep_eq_spec, readU32, le32, List.range, List.range.loop,
    List.foldl, List.getD_cons_zero, List.getD_cons_succ, List.cons_append, List.nil_append]
  norm_num [List.range, List.range.loop, hr]

/-- The hash of a static key is the two-word fold. -/
theorem GetHashCode_static (k : HdTileKey) (h : k.WF) (hd : k.IsChrRamTile = false) :
    k.GetHashCode = specHashFold [k.TileIndex, k.PaletteColors] := by
  have hc := compositeKey_eq k h
  obtain ⟨hp, -, -, hi⟩ := h
  have h1 : k.compositeKey % 4294967296 = k.TileIndex := by omega
  have h2 : k.compositeKey / 4294967296 % 4294967296 = k.PaletteColors := by omega
  have hr1 := readU32_le32 _ hi
  have hr2 := readU32_le32 _ hp
  simp only [readU32, le32, List.getD_cons_zero, List.getD_cons_succ] at hr1 hr2
  simp only [HdTileKey.GetHashCode, hd, HdTileKey.CalculateHash, le64, h1, h2,
    specHashFold, hashStep_eq_spec, readU32, le32, List.range, List.range.loop,
    List.foldl, List.getD_cons_zero, List.getD_cons_succ, List.cons_append, List.nil_append]
  norm_num [List.range, List.range.loop, hr1, hr2]

/-- Equality of a dynamic key with any key: palette word and tile bytes. -/
theorem operatorEq_dynamic (a b : HdTileKey) (ha : a.WF) (hb : b.WF)
    (hd : a.IsChrRamTile = true) :
    a.operatorEq b = true ↔ a.PaletteColors = b.PaletteColors ∧ a.TileData = b.TileData := by
  obtain ⟨hpa, hla, -, -⟩ := ha
  obtain ⟨hpb, hlb, -, -⟩ := hb
  have hta : (le32 a.PaletteColors ++ a.TileData ++ le32 a.TileIndex).take 20
      = le32 a.PaletteColors ++ a.TileData := by
    rw [List.take_append_of_le_length (by simp [le32_length, hla])]
    exact List.take_of_length_le (by simp [le32_length, hla])
  have htb : (le32 b.PaletteColors ++ b.TileData ++ le32 b.TileIndex).take 20
      = le32 b.PaletteColors ++ b.TileData := by
    rw [List.take_append_of_le_length (by simp [le32_length, hlb])]
    exact List.take_of_length_le (by simp [le32_length, hlb])
  simp only [HdTileKey.operatorEq, hd, if_true, memcmpIsZero, HdTileKey.bytes, hta, htb,
    decide_eq_true_eq]
  constructor
  · intro h
    have h' := List.append_inj h (by simp [le32_length])
    exact ⟨le32_inj _ _ hpa hpb h'.1, h'.2⟩
  · rintro ⟨h1, h2⟩
    rw [h1, h2]

/-- Equality of a static key with any key: tile index and palette word. -/
theorem operatorEq_static (a b : HdTileKey) (ha : a.WF) (hb : b.WF)
    (hd : a.IsChrRamTile = false) :
    a.operatorEq b = true ↔ a.TileIndex = b.TileIndex ∧ a.PaletteColors = b.PaletteColors := by
  have hca := compositeKey_eq a ha
  have hcb := compositeKey_eq b hb
  obtain ⟨hpa, -, -, hia⟩ := ha
  obtain ⟨hpb, -, -, hib⟩ := hb
  have he : a.operatorEq b = (a.compositeKey == b.compositeKey) := by
    simp [HdTileKey.operatorEq, hd]
  rw [he, hca, hcb, beq_iff_eq]
  omega

theorem and_top_byte (p : Nat) : p &&& 0xFF000000 = 2 ^ 24 * ((p >>> 24) % 2 ^ 8) := by
  have hm : (0xFF000000 : Nat) = 2 ^ 24 * (2 ^ 8 - 1) := by norm_num
  rw [hm]
  apply Nat.eq_of_testBit_eq
  intro i
  simp only [Nat.testBit_and, Nat.testBit_mul_pow_two, Nat.testBit_two_pow_sub_one,
    Nat.testBit_mod_two_pow, Nat.testBit_shiftRight]
  by_cases h : 24 ≤ i
  · have h2 : 24 + (i - 24) = i := by omega
    simp only [h2, ge_iff_le, h, decide_True, Bool.true_and]
    cases decide (i - 24 < 8) <;> simp
  · simp [h]

/-- Keys with the same flag that compare equal have the same hash code. -/
theorem hash_eq_of_operatorEq (a b : HdTileKey) (ha : a.WF) (hb : b.WF)
    (hf : a.IsChrRamTile = b.IsChrRamTile) (h : a.operatorEq b = true) :
    a.GetHashCode = b.GetHashCode := by
  cases hd : a.IsChrRamTile with
  | true =>
    obtain ⟨h1, h2⟩ := (operatorEq_dynamic a b ha hb hd).1 h
    rw [GetHashCode_dynamic a ha hd, GetHashCode_dynamic b hb (hf ▸ hd), h1, h2]
  | false =>
    obtain ⟨h1, h2⟩ := (operatorEq_static a b ha hb hd).1 h
    rw [GetHashCode_static a ha hd, GetHashCode_static b hb (hf ▸ hd), h1, h2]

/-! ## Tile key: hash and equality -/

/-- C1, as stated, fails: the dynamic key `exKeyDynamic` compares equal to the
static key `exKeyStatic` (same palette word and tile bytes), yet their hash
codes are 0 and 16. -/
theorem C1_mixed_flags_counterexample :
    exKeyDynamic.WF ∧ exKeyStatic.WF ∧
      exKeyDynamic.operatorEq exKeyStatic = true ∧
      exKeyDynamic.GetHashCode = 0 ∧ exKeyStatic.GetHashCode = 16 ∧
      exKeyDynamic.GetHashCode ≠ exKeyStatic.GetHashCode := by
  decide

/-- C1 (amended): for all well-formed tile keys `a`, `b` with the same
`IsChrRamTile` flag, `a == b` implies `a.GetHashCode() == b.GetHashCode()`. -/
theorem C1_equal_keys_equal_hashes (a b : HdTileKey) (ha : a.WF) (hb : b.WF)
    (hf : a.IsChrRamTile = b.IsChrRamTile) (h : a.operatorEq b = true) :
    a.GetHashCode = b.GetHashCode :=
  hash_eq_of_operatorEq a b ha hb hf h

/-- C1 (amended), at two static keys that differ in their tile bytes only. -/
theorem C1_equal_keys_equal_hashes_witness :
    exKeySeven.WF ∧ exKeySevenOther.WF ∧ exKeySeven ≠ exKeySevenOther ∧
      exKeySeven.GetHashCode = exKeySevenOther.GetHashCode :=
  ⟨by decide, by decide, by decide,
    C1_equal_keys_equal_hashes exKeySeven exKeySevenOther (by decide) (by decide) rfl
      (by decide)⟩

/-- C2: for a dynamic key `a` and any key `b`, `a == b` holds iff the palette
words and all sixteen tile bytes agree; for a static key `a` and any key `b`,
`a == b` holds iff the tile indices and the palette words agree. -/
theorem C2_equality_is_span_comparison (a b : HdTileKey) (ha : a.WF) (hb : b.WF) :
    (a.IsChrRamTile = true →
      (a.operatorEq b = true ↔
        a.PaletteColors = b.PaletteColors ∧ a.TileData = b.TileData)) ∧
    (a.IsChrRamTile = false →
      (a.operatorEq b = true ↔
        a.TileIndex = b.TileIndex ∧ a.PaletteColors = b.PaletteColors)) :=
  ⟨operatorEq_dynamic a b ha hb, operatorEq_static a b ha hb⟩

/-- C2, at a dynamic pair differing in the tile index only (equal) and at a
static pair differing in the tile bytes only (equal). -/
theorem C2_equality_is_span_comparison_witness :
    exKeyBitmap.operatorEq exKeyBitmapOther = true ∧
      exKeySeven.operatorEq exKeySevenOther = true :=
  ⟨((C2_equality_is_span_comparison exKeyBitmap exKeyBitmapOther (by decide) (by decide)).1
      rfl).2 ⟨rfl, rfl⟩,
    ((C2_equality_is_span_comparison exKeySeven exKeySevenOther (by decide) (by decide)).2
      rfl).2 ⟨rfl, rfl⟩⟩

/-- C3: `GetHashCode` is the documented add-then-rotate-left-by-2 fold modulo
`2^32` from accumulator 0: over `PaletteColors` and the four little-endian
words of `TileData` for a dynamic key, over `TileIndex` then `PaletteColors`
for a static key, that is `rotl2 (rotl2 TileIndex + PaletteColors)`. -/
theorem C3_hash_is_documented_fold (k : HdTileKey) (h : k.WF) :
    (k.IsChrRamTile = true →
      k.GetHashCode = specHashFold [k.PaletteColors, tileWord k.TileData 0,
        tileWord k.TileData 4, tileWord k.TileData 8, tileWord k.TileData 12]) ∧
    (k.IsChrRamTile = false →
      k.GetHashCode = specHashFold [k.TileIndex, k.PaletteColors] ∧
      k.GetHashCode
        = specRotl2 ((specRotl2 k.TileIndex + k.PaletteColors) % 4294967296)) := by
  refine ⟨GetHashCode_dynamic k h, fun hd => ?_⟩
  have hs := GetHashCode_static k h hd
  refine ⟨hs, ?_⟩
  rw [hs]
  have hi : (0 + k.TileIndex) % 4294967296 = k.TileIndex := by
    have := h.2.2.2
    omega
  simp only [specHashFold, List.foldl, hi]

/-- C3, at a dynamic key with a non-trivial bitmap and at a static key. -/
theorem C3_hash_is_documented_fold_witness :
    exKeyBitmap.GetHashCode
        = specHashFold [0xFF0F1627, 0x04030201, 0x08070605, 0x0C0B0A09, 0xFF0F0E0D] ∧
      exKeySeven.GetHashCode = specRotl2 ((specRotl2 7 + 5) % 4294967296) :=
  ⟨(C3_hash_is_documented_fold exKeyBitmap (by decide)).1 rfl,
    ((C3_hash_is_documented_fold exKeySeven (by decide)).2 rfl).2⟩

/-- C4, as stated, fails: the static keys `exCollideA` (index 0, palette 4)
and `exCollideB` (index 1, palette 0) have the same hash code 16 and do not
compare equal. -/
theorem C4_collision_counterexample :
    exCollideA.WF ∧ exCollideB.WF ∧
      exCollideA.IsChrRamTile = exCollideB.IsChrRamTile ∧
      exCollideA.GetHashCode = 16 ∧ exCollideB.GetHashCode = 16 ∧
      exCollideA.operatorEq exCollideB = false := by
  decide

/-- C4 (amended): for well-formed keys with the same `IsChrRamTile` flag,
`a == b` implies equal hash codes, and unequal hash codes imply that the keys
do not compare equal. -/
theorem C4_equality_refines_hash (a b : HdTileKey) (ha : a.WF) (hb : b.WF)
    (hf : a.IsChrRamTile = b.IsChrRamTile) :
    (a.operatorEq b = true → a.GetHashCode = b.GetHashCode) ∧
      (a.GetHashCode ≠ b.GetHashCode → a.operatorEq b = false) := by
  refine ⟨hash_eq_of_operatorEq a b ha hb hf, fun hne => ?_⟩
  cases he : a.operatorEq b with
  | false => rfl
  | true => exact absurd (hash_eq_of_operatorEq a b ha hb hf he) hne

/-- C4 (amended), at two dynamic keys that differ in the tile index only, and
read backwards at two static keys with different hash codes. -/
theorem C4_equality_refines_hash_witness :
    exKeyBitmap.GetHashCode = exKeyBitmapOther.GetHashCode ∧
      exKeySeven.operatorEq exCollideA = false :=
  ⟨(C4_equality_refines_hash exKeyBitmap exKeyBitmapOther (by decide) (by decide) rfl).1
      (by decide),
    (C4_equality_refines_hash exKeySeven exCollideA (by decide) (by decide) rfl).2
      (by decide)⟩

/-- C5: `GetKey(true)` returns a key whose `PaletteColors` is `0xFFFFFFFF` and
whose other fields are those of `k`; `GetKey(false)` returns `k`; the receiver
is unchanged by either call. -/
theorem C5_GetKey_frame (k : HdTileKey) :
    (k.GetKey true).1.PaletteColors = 0xFFFFFFFF ∧
      (k.GetKey true).1.TileData = k.TileData ∧
      (k.GetKey true).1.TileIndex = k.TileIndex ∧
      (k.GetKey true).1.IsChrRamTile = k.IsChrRamTile ∧
      (k.GetKey true).1.ForDefaultKey = k.ForDefaultKey ∧
      (k.GetKey false).1 = k ∧
      (k.GetKey true).2 = k ∧ (k.GetKey false).2 = k :=
  ⟨rfl, rfl, rfl, rfl, rfl, rfl, rfl, rfl⟩

/-- C6: `IsSpriteTile()` is true iff bits 24..31 of `PaletteColors` are
`0xFF`, and it does not look at any other field of the key. -/
theorem C6_IsSpriteTile_top_byte (k : HdTileKey) :
    (k.IsSpriteTile = true ↔ (k.PaletteColors >>> 24) % 256 = 0xFF) ∧
      ∀ (td : List Nat) (ti : Nat) (chr dflt : Bool),
        HdTileKey.IsSpriteTile
            { PaletteColors := k.PaletteColors, TileData := td, TileIndex := ti,
              IsChrRamTile := chr, ForDefaultKey := dflt }
          = k.IsSpriteTile := by
  refine ⟨?_, fun _ _ _ _ => rfl⟩
  simp only [HdTileKey.IsSpriteTile, beq_iff_eq]
  rw [and_top_byte]
  omega

/-! ## Auxiliary facts about `CheckCondition` -/

theorem absoluteIndex_of_valid (c : HdPackCondition) (i : Nat)
    (hi : (i : Int) = c.TileY * 256 + c.TileX) (hv : i ≤ PixelCount) :
    c.absoluteIndex = (i : Int) := by
  simp only [PixelCount] at hv
  simp only [HdPackCondition.absoluteIndex, i32]
  omega

theorem nearbyIndex_of_valid (c : HdPackCondition) (x y : Int) (i : Nat)
    (hi : (i : Int) = (y + c.TileY) * 256 + (x + c.TileX)) (hv : i ≤ PixelCount) :
    c.nearbyIndex x y = (i : Int) := by
  simp only [PixelCount] at hv
  simp only [HdPackCondition.nearbyIndex, i32]
  omega

theorem toU32_eq_iff (n : Nat) (z : Int) (h0 : 0 ≤ z) (h1 : z < 4294967296) :
    n = toU32 z ↔ (n : Int) = z := by
  simp only [toU32]
  omega

theorem memcmpIsZero_sixteen (a b : List Nat) (ha : a.length = 16) (hb : b.length = 16) :
    memcmpIsZero a b 16 = decide (a = b) := by
  simp only [memcmpIsZero]
  rw [List.take_of_length_le (by omega), List.take_of_length_le (by omega)]

/-- Evaluation of the absolute kinds at an index that passes the range test
and lies inside the grid. -/
theorem CheckCondition_absolute_eval (c : HdPackCondition) (grid : List HdPpuPixelInfo)
    (x y : Int) (i : Nat) (px : HdPpuPixelInfo)
    (hk : c.CondType = .TileAtPosition ∨ c.CondType = .SpriteAtPosition)
    (hidx : c.absoluteIndex = (i : Int)) (hle : i ≤ PixelCount)
    (hpx : grid[i]? = some px) :
    c.CheckCondition grid x y =
      some (if c.TileIndex ≥ 0 then
          ((c.entry px).PaletteColors == c.PaletteColors
            && (c.entry px).TileIndex == toU32 c.TileIndex)
        else
          ((c.entry px).PaletteColors == c.PaletteColors
            && memcmpIsZero (c.entry px).TileData c.TileData 16)) := by
  have hr : ¬ ((i : Int) < 0 ∨ PixelCount < i) := by omega
  by_cases ht : 0 ≤ c.TileIndex <;> rcases hk with hk | hk <;>
    simp [HdPackCondition.CheckCondition, HdPackCondition.entry, hk, hidx, hr, hpx, ht]

/-- Evaluation of the relative kinds at an index that passes the range test
and lies inside the grid. -/
theorem CheckCondition_nearby_eval (c : HdPackCondition) (grid : List HdPpuPixelInfo)
    (x y : Int) (i : Nat) (px : HdPpuPixelInfo)
    (hk : c.CondType = .TileNearby ∨ c.CondType = .SpriteNearby)
    (hidx : c.nearbyIndex x y = (i : Int)) (hle : i ≤ PixelCount)
    (hpx : grid[i]? = some px) :
    c.CheckCondition grid x y =
      some (if c.TileIndex ≥ 0 then
          ((c.entry px).TileIndex == toU32 c.TileIndex)
        else
          memcmpIsZero (c.entry px).TileData c.TileData 16) := by
  have hr : ¬ ((i : Int) < 0 ∨ PixelCount < i) := by omega
  by_cases ht : 0 ≤ c.TileIndex <;> rcases hk with hk | hk <;>
    simp [HdPackCondition.CheckCondition, HdPackCondition.entry, hk, hidx, hr, hpx, ht]

/-- Evaluation of any kind at an index that passes the range test and lies
outside the grid: the read fails. -/
theorem CheckCondition_read_outside (c : HdPackCondition) (grid : List HdPpuPixelInfo)
    (x y : Int) (i : Nat)
    (hidx : (c.CondType = .TileAtPosition ∨ c.CondType = .SpriteAtPosition) ∧
        c.absoluteIndex = (i : Int) ∨
      (c.CondType = .TileNearby ∨ c.CondType = .SpriteNearby) ∧
        c.nearbyIndex x y = (i : Int))
    (hle : i ≤ PixelCount) (hout : grid.length ≤ i) :
    c.CheckCondition grid x y = none := by
  have hr : ¬ ((i : Int) < 0 ∨ PixelCount < i) := by omega
  have hg : grid[i]? = none := List.getElem?_eq_none hout
  rcases hidx with ⟨hk | hk, hi⟩ | ⟨hk | hk, hi⟩ <;>
    simp [HdPackCondition.CheckCondition, hk, hi, hr, hg]

theorem exGrid_length : exGrid.length = PixelCount := by
  simp [exGrid]

theorem exGrid_wf : GridWF exGrid := by
  refine ⟨exGrid_length, fun px hpx => ?_⟩
  rcases List.mem_or_eq_of_mem_set hpx with h | h
  · rw [List.eq_of_mem_replicate h]
    decide
  · rw [h]
    decide

theorem exGrid_at_773 : exGrid[773]? = some exPixelSeven := by
  have h : 773 < (List.replicate PixelCount exPixelBlank).length := by
    rw [List.length_replicate]
    decide
  exact List.getElem?_set_self h

/-! ## Condition evaluation -/

/-- C7: for a condition of kind `TileAtPosition` or `SpriteAtPosition` and a
screen grid, if `i = TileY*256 + TileX` is a grid index holding entry `px`,
`CheckCondition` returns true iff the tile (resp. sprite) key of `px` has the
condition's `PaletteColors` and, when the condition's `TileIndex` is
non-negative, its `TileIndex`, otherwise its sixteen `TileData` bytes; the
result is the same at every render position. -/
theorem C7_absolute_condition (c : HdPackCondition) (grid : List HdPpuPixelInfo)
    (x y : Int) (i : Nat) (px : HdPpuPixelInfo)
    (hc : c.WF) (hg : GridWF grid)
    (hk : c.CondType = .TileAtPosition ∨ c.CondType = .SpriteAtPosition)
    (hi : (i : Int) = c.TileY * 256 + c.TileX) (hpx : grid[i]? = some px) :
    c.CheckCondition grid x y =
        some (decide ((c.entry px).PaletteColors = c.PaletteColors ∧
          (if 0 ≤ c.TileIndex then ((c.entry px).TileIndex : Int) = c.TileIndex
           else (c.entry px).TileData = c.TileData))) ∧
      ∀ x' y' : Int, c.CheckCondition grid x' y' = c.CheckCondition grid x y := by
  obtain ⟨hlt, hget⟩ := List.getElem?_eq_some.1 hpx
  have hmem : px ∈ grid := hget ▸ List.getElem_mem hlt
  have hle : i ≤ PixelCount := by
    have := hg.1
    omega
  have hidx := absoluteIndex_of_valid c i hi hle
  have hev := fun x y => CheckCondition_absolute_eval c grid x y i px hk hidx hle hpx
  refine ⟨?_, fun x' y' => by rw [hev x' y', hev x y]⟩
  rw [hev x y]
  have hel : (c.entry px).TileData.length = 16 := by
    rcases hk with hk | hk <;> simp only [HdPackCondition.entry, hk]
    · exact (hg.2 px hmem).1.2.1
    · exact (hg.2 px hmem).2.2.1
  obtain ⟨-, -, -, ⟨-, hti⟩, hcl, -⟩ := hc
  by_cases ht : 0 ≤ c.TileIndex
  · have hu := toU32_eq_iff (c.entry px).TileIndex c.TileIndex ht (by omega)
    simp only [ge_iff_le, ht, if_true, Option.some.injEq]
    rw [Bool.eq_iff_iff]
    simp only [Bool.and_eq_true, beq_iff_eq, decide_eq_true_eq, hu]
  · simp only [ge_iff_le, ht, if_false, Option.some.injEq, memcmpIsZero_sixteen _ _ hel hcl]
    rw [Bool.eq_iff_iff]
    simp only [Bool.and_eq_true, beq_iff_eq, decide_eq_true_eq]

/-- C7 at `TileX = 5`, `TileY = 3`, `TileIndex = 7`, `PaletteColors = 0xAABBCCDD`:
the index is 773, and the condition holds on a grid whose entry 773 shows
tile 7 with that palette. -/
theorem C7_absolute_condition_witness :
    exCond773.CheckCondition exGrid 0 0 = some true ∧
      ∀ x' y' : Int, exCond773.CheckCondition exGrid x' y'
        = exCond773.CheckCondition exGrid 0 0 :=
  C7_absolute_condition exCond773 exGrid 0 0 773 exPixelSeven (by decide) exGrid_wf
    (Or.inl rfl) (by decide) exGrid_at_773

/-- C8 fails on the code at the index `PixelCount` itself: on a grid of exactly
`PixelCount` entries, the absolute condition at row 240, column 0 and the
relative condition one row below the render position `(0, 239)` both compute
index 61440, pass the test `pixelIndex > PixelCount`, and read the grid
outside its bounds instead of returning false. -/
theorem C8_index_PixelCount_read_outside :
    exGrid.length = PixelCount ∧
      exCondRow240.absoluteIndex = (PixelCount : Int) ∧
      exCondRow240.CheckCondition exGrid 0 0 = none ∧
      exCondBelow.nearbyIndex 0 239 = (PixelCount : Int) ∧
      exCondBelow.CheckCondition exGrid 0 239 = none :=
  ⟨exGrid_length, by decide,
    CheckCondition_read_outside exCondRow240 exGrid 0 0 PixelCount
      (Or.inl ⟨Or.inl rfl, by decide⟩) (Nat.le_refl _) (Nat.le_of_eq exGrid_length),
    by decide,
    CheckCondition_read_outside exCondBelow exGrid 0 239 PixelCount
      (Or.inr ⟨Or.inr rfl, by decide⟩) (Nat.le_refl _) (Nat.le_of_eq exGrid_length)⟩

/-- C9: for a condition of kind `TileNearby` or `SpriteNearby` with a
non-negative `TileIndex` and a screen grid, if
`i = (y + TileY)*256 + (x + TileX)` is a grid index holding entry `px`,
`CheckCondition` returns true iff the tile (resp. sprite) key of `px` has the
condition's `TileIndex`; replacing the condition's `PaletteColors`, or the
palette words of the grid entry, by any other values does not change the
result. -/
theorem C9_nearby_index_condition (c : HdPackCondition) (grid : List HdPpuPixelInfo)
    (x y : Int) (i : Nat) (px : HdPpuPixelInfo)
    (hc : c.WF) (hg : grid.length = PixelCount)
    (hk : c.CondType = .TileNearby ∨ c.CondType = .SpriteNearby)
    (ht : 0 ≤ c.TileIndex)
    (hi : (i : Int) = (y + c.TileY) * 256 + (x + c.TileX)) (hpx : grid[i]? = some px) :
    c.CheckCondition grid x y
        = some (decide (((c.entry px).TileIndex : Int) = c.TileIndex)) ∧
      (∀ p : Nat, HdPackCondition.CheckCondition { c with PaletteColors := p } grid x y
        = c.CheckCondition grid x y) ∧
      (∀ p q : Nat, c.CheckCondition (grid.set i (px.withPaletteColors p q)) x y
        = c.CheckCondition grid x y) := by
  obtain ⟨hlt, -⟩ := List.getElem?_eq_some.1 hpx
  have hle : i ≤ PixelCount := by omega
  have hidx := nearbyIndex_of_valid c x y i hi hle
  have hev := CheckCondition_nearby_eval c grid x y i px hk hidx hle hpx
  obtain ⟨-, -, -, ⟨-, hti⟩, -, -⟩ := hc
  have hu := toU32_eq_iff (c.entry px).TileIndex c.TileIndex ht (by omega)
  refine ⟨?_, fun p => ?_, fun p q => ?_⟩
  · rw [hev]
    simp only [ge_iff_le, ht, if_true, Option.some.injEq]
    rw [Bool.eq_iff_iff]
    simp only [beq_iff_eq, decide_eq_true_eq, hu]
  · rw [hev, CheckCondition_nearby_eval { c with PaletteColors := p } grid x y i px hk
      (nearbyIndex_of_valid _ x y i hi hle) hle hpx]
    rfl
  · rw [hev, CheckCondition_nearby_eval c (grid.set i (px.withPaletteColors p q)) x y i
      (px.withPaletteColors p q) hk hidx hle (List.getElem?_set_self hlt)]
    rcases hk with hk | hk <;>
      simp only [HdPackCondition.entry, hk, HdPpuPixelInfo.withPaletteColors]

/-- C9 at the condition `tileNearby,1,1,7` with palette `0x12345678`, evaluated
at render position `(4, 2)`: the index is 773, whose tile has index 7 and
palette `0xAABBCCDD`, and the condition holds. -/
theorem C9_nearby_index_condition_witness :
    exCondNearbyIndex.PaletteColors ≠ exPixelSeven.Tile.PaletteColors ∧
      exCondNearbyIndex.CheckCondition exGrid 4 2 = some true :=
  ⟨by decide,
    (C9_nearby_index_condition exCondNearbyIndex exGrid 4 2 773 exPixelSeven (by decide)
      exGrid_length (Or.inl rfl) (by decide) (by decide) exGrid_at_773).1⟩

/-- C10, as stated, fails: the bitmap-identified relative condition
`exCondNearbyBitmap` has palette `0x12345678`, the grid entry it looks at
(index 773) has the same sixteen tile bytes and palette `0xAABBCCDD`, and
`CheckCondition` returns true. -/
theorem C10_palette_counterexample :
    exCondNearbyBitmap.WF ∧ GridWF exGrid ∧
      exCondNearbyBitmap.TileIndex < 0 ∧
      ((773 : Nat) : Int) = (2 + exCondNearbyBitmap.TileY) * 256 + (4 + exCondNearbyBitmap.TileX) ∧
      exGrid[773]? = some exPixelSeven ∧
      exPixelSeven.Tile.TileData = exCondNearbyBitmap.TileData ∧
      exPixelSeven.Tile.PaletteColors ≠ exCondNearbyBitmap.PaletteColors ∧
      exCondNearbyBitmap.CheckCondition exGrid 4 2 = some true :=
  ⟨by decide, exGrid_wf, by decide, by decide, exGrid_at_773, by decide, by decide,
    CheckCondition_nearby_eval exCondNearbyBitmap exGrid 4 2 773 exPixelSeven (Or.inl rfl)
      (by decide) (by decide) exGrid_at_773⟩

/-- C10 (amended): for a condition of kind `TileNearby` or `SpriteNearby` with
a negative `TileIndex` and a screen grid, if
`i = (y + TileY)*256 + (x + TileX)` is a grid index holding entry `px`,
`CheckCondition` returns true iff the sixteen `TileData` bytes of the tile
(resp. sprite) key of `px` equal the condition's; the palette is not compared
(replacing the condition's `PaletteColors` does not change the result). -/
theorem C10_nearby_bitmap_condition (c : HdPackCondition) (grid : List HdPpuPixelInfo)
    (x y : Int) (i : Nat) (px : HdPpuPixelInfo)
    (hc : c.WF) (hg : GridWF grid)
    (hk : c.CondType = .TileNearby ∨ c.CondType = .SpriteNearby)
    (ht : c.TileIndex < 0)
    (hi : (i : Int) = (y + c.TileY) * 256 + (x + c.TileX)) (hpx : grid[i]? = some px) :
    c.CheckCondition grid x y = some (decide ((c.entry px).TileData = c.TileData)) ∧
      (∀ p : Nat, HdPackCondition.CheckCondition { c with PaletteColors := p } grid x y
        = c.CheckCondition grid x y) := by
  obtain ⟨hlt, hget⟩ := List.getElem?_eq_some.1 hpx
  have hmem : px ∈ grid := hget ▸ List.getElem_mem hlt
  have hle : i ≤ PixelCount := by
    have := hg.1
    omega
  have hidx := nearbyIndex_of_valid c x y i hi hle
  have hev := CheckCondition_nearby_eval c grid x y i px hk hidx hle hpx
  have hel : (c.entry px).TileData.length = 16 := by
    rcases hk with hk | hk <;> simp only [HdPackCondition.entry, hk]
    · exact (hg.2 px hmem).1.2.1
    · exact (hg.2 px hmem).2.2.1
  have hcl := hc.2.2.2.2.1
  have hnt : ¬ (0 ≤ c.TileIndex) := by omega
  refine ⟨?_, fun p => ?_⟩
  · rw [hev]
    simp only [ge_iff_le, hnt, if_false, memcmpIsZero_sixteen _ _ hel hcl]
  · rw [hev, CheckCondition_nearby_eval { c with PaletteColors := p } grid x y i px hk
      (nearbyIndex_of_valid _ x y i hi hle) hle hpx]
    rfl

/-- C10 (amended) at the bitmap-identified condition `exCondNearbyBitmap`,
evaluated at render position `(4, 2)`. -/
theorem C10_nearby_bitmap_condition_witness :
    exCondNearbyBitmap.CheckCondition exGrid 4 2 = some true :=
  (C10_nearby_bitmap_condition exCondNearbyBitmap exGrid 4 2 773 exPixelSeven (by decide)
    exGrid_wf (Or.inl rfl) (by decide) (by decide) exGrid_at_773).1

/-! ## Replacement tiles: condition lists -/

theorem MatchesConditionLoop_true_iff (grid : List HdPpuPixelInfo) (x y : Int)
    (conds : List HdPackCondition) :
    HdPackTileInfo.MatchesConditionLoop grid x y conds = some true ↔
      ∀ c ∈ conds, c.CheckCondition grid x y = some true := by
  induction conds with
  | nil => simp [HdPackTileInfo.MatchesConditionLoop]
  | cons c rest ih =>
    rw [HdPackTileInfo.MatchesConditionLoop]
    rcases hc : c.CheckCondition grid x y with _ | _ | _ <;> simp [ih, hc]

theorem MatchesConditionLoop_first_false (grid : List HdPpuPixelInfo) (x y : Int)
    (pre post : List HdPackCondition) (c : HdPackCondition)
    (hpre : ∀ d ∈ pre, d.CheckCondition grid x y = some true)
    (hc : c.CheckCondition grid x y = some false) :
    HdPackTileInfo.MatchesConditionLoop grid x y (pre ++ c :: post) = some false := by
  induction pre with
  | nil => simp [HdPackTileInfo.MatchesConditionLoop, hc]
  | cons d rest ih =>
    have hd := hpre d (List.mem_cons_self _ _)
    simp only [List.cons_append, HdPackTileInfo.MatchesConditionLoop, hd]
    exact ih (fun e he => hpre e (List.mem_cons_of_mem _ he))

theorem MatchesConditionLoop_total (grid : List HdPpuPixelInfo) (x y : Int)
    (conds : List HdPackCondition)
    (h : ∀ c ∈ conds, c.CheckCondition grid x y ≠ none) :
    HdPackTileInfo.MatchesConditionLoop grid x y conds
      = some (conds.all (fun c => c.CheckCondition grid x y == some true)) := by
  induction conds with
  | nil => simp [HdPackTileInfo.MatchesConditionLoop]
  | cons c rest ih =>
    have hc := h c (List.mem_cons_self _ _)
    have ih2 := ih (fun e he => h e (List.mem_cons_of_mem _ he))
    rw [HdPackTileInfo.MatchesConditionLoop]
    rcases hcc : c.CheckCondition grid x y with _ | _ | _
    · exact absurd hcc hc
    · simp [hcc]
    · simp [hcc, ih2]

/-- C11: `MatchesCondition` returns true iff `CheckCondition` is true for
every condition of the tile; when every condition evaluates, the result is the
conjunction of the conditions; a tile without conditions matches; and the
result is false as soon as one condition is false after conditions that hold,
whatever follows it. -/
theorem C11_MatchesCondition_is_conjunction (t : HdPackTileInfo)
    (grid : List HdPpuPixelInfo) (x y : Int) :
    (t.MatchesCondition grid x y = some true ↔
        ∀ c ∈ t.Conditions, c.CheckCondition grid x y = some true) ∧
      ((∀ c ∈ t.Conditions, c.CheckCondition grid x y ≠ none) →
        t.MatchesCondition grid x y
          = some (t.Conditions.all (fun c => c.CheckCondition grid x y == some true))) ∧
      (t.Conditions = [] → t.MatchesCondition grid x y = some true) ∧
      (∀ (pre post : List HdPackCondition) (c : HdPackCondition),
        t.Conditions = pre ++ c :: post →
        (∀ d ∈ pre, d.CheckCondition grid x y = some true) →
        c.CheckCondition grid x y = some false →
        t.MatchesCondition grid x y = some false) := by
  refine ⟨MatchesConditionLoop_true_iff grid x y _, MatchesConditionLoop_total grid x y _,
    fun h => ?_, fun pre post c h hpre hc => ?_⟩
  · simp [HdPackTileInfo.MatchesCondition, h, HdPackTileInfo.MatchesConditionLoop]
  · simp only [HdPackTileInfo.MatchesCondition, h]
    exact MatchesConditionLoop_first_false grid x y pre post c hpre hc

theorem exCond773_holds (x y : Int) : exCond773.CheckCondition exGrid x y = some true :=
  CheckCondition_absolute_eval exCond773 exGrid x y 773 exPixelSeven (Or.inl rfl)
    (by decide) (by decide) exGrid_at_773

theorem exCondNearbyIndex_holds : exCondNearbyIndex.CheckCondition exGrid 4 2 = some true :=
  CheckCondition_nearby_eval exCondNearbyIndex exGrid 4 2 773 exPixelSeven (Or.inl rfl)
    (by decide) (by decide) exGrid_at_773

theorem exCondNearbyEight_fails :
    HdPackCondition.CheckCondition { exCondNearbyIndex with TileIndex := 8 } exGrid 4 2
      = some false :=
  CheckCondition_nearby_eval { exCondNearbyIndex with TileIndex := 8 } exGrid 4 2 773
    exPixelSeven (Or.inl rfl) (by decide) (by decide) exGrid_at_773

/-- C11 on `exGrid` at `(4, 2)`: a tile with two conditions that hold matches, a
tile without conditions matches, and a tile whose second condition fails does
not match although its third condition lies outside the grid. -/
theorem C11_MatchesCondition_is_conjunction_witness :
    exTileTwoConditions.MatchesCondition exGrid 4 2 = some true ∧
      exTileNoConditions.MatchesCondition exGrid 4 2 = some true ∧
      exTileThreeConditions.MatchesCondition exGrid 4 2 = some false :=
  ⟨(C11_MatchesCondition_is_conjunction exTileTwoConditions exGrid 4 2).1.2
      (fun c hc => by
        have h : c = exCond773 ∨ c = exCondNearbyIndex := by
          simpa [exTileTwoConditions] using hc
        rcases h with h | h
        · rw [h]
          exact exCond773_holds 4 2
        · rw [h]
          exact exCondNearbyIndex_holds),
    (C11_MatchesCondition_is_conjunction exTileNoConditions exGrid 4 2).2.2.1 rfl,
    (C11_MatchesCondition_is_conjunction exTileThreeConditions exGrid 4 2).2.2.2
      [exCond773] [exCondRow240] { exCondNearbyIndex with TileIndex := 8 } rfl
      (fun d hd => by
        rw [List.mem_singleton.1 hd]
        exact exCond773_holds 4 2)
      exCondNearbyEight_fails⟩

/-! ## Replacement tiles: pixel decoding -/

theorem ToRgbColor_le (lowByte highByte j : Nat) :
    HdPackTileInfo.ToRgbColor lowByte highByte j ≤ 3 := by
  simp only [HdPackTileInfo.ToRgbColor, u8, Nat.and_one_is_mod, Nat.shiftLeft_eq]
  have ha : lowByte >>> (7 - j) % 2 < 2 := Nat.mod_lt _ (by norm_num)
  have hb : highByte >>> (7 - j) % 2 < 2 := Nat.mod_lt _ (by norm_num)
  generalize lowByte >>> (7 - j) % 2 = a at ha
  generalize highByte >>> (7 - j) % 2 = b at hb
  interval_cases a <;> interval_cases b <;> decide

theorem ToRgbColor_eq_spec (lowByte highByte j : Nat) :
    HdPackTileInfo.ToRgbColor lowByte highByte j
      = specBit lowByte (7 - j) + 2 * specBit highByte (7 - j) := by
  simp only [HdPackTileInfo.ToRgbColor, u8, Nat.and_one_is_mod, Nat.shiftLeft_eq, specBit,
    Nat.testBit, Nat.one_and_eq_mod_two, bne_iff_ne]
  have ha : lowByte >>> (7 - j) % 2 < 2 := Nat.mod_lt _ (by norm_num)
  have hb : highByte >>> (7 - j) % 2 < 2 := Nat.mod_lt _ (by norm_num)
  generalize lowByte >>> (7 - j) % 2 = a at ha
  generalize highByte >>> (7 - j) % 2 = b at hb
  interval_cases a <;> interval_cases b <;> decide

theorem ToRgbPaletteIndex_lt (t : HdPackTileInfo) (color : Nat) :
    t.ToRgbPaletteIndex color < 64 :=
  Nat.and_lt_two_pow _ (by norm_num : 0x3F < 2 ^ 6)

theorem ToRgbPixel_isSome (t : HdPackTileInfo) (palette : List Nat) (lowByte highByte j : Nat)
    (hp : palette.length = 64) :
    ∃ v, t.ToRgbPixel palette lowByte highByte j = some v := by
  have hlt : ∀ color, t.ToRgbPaletteIndex color < palette.length := fun color => by
    rw [hp]
    exact ToRgbPaletteIndex_lt t color
  have hget : ∀ color, ∃ v, palette[t.ToRgbPaletteIndex color]? = some v := fun color =>
    ⟨_, List.getElem?_eq_getElem (hlt color)⟩
  simp only [HdPackTileInfo.ToRgbPixel]
  split_ifs
  · exact ⟨_, rfl⟩
  · exact hget _
  · exact hget _

theorem ToRgbInner_eq (t : HdPackTileInfo) (palette : List Nat) (lowByte highByte : Nat)
    (hp : palette.length = 64) (js : List Nat) :
    ∀ buf : List Nat, t.ToRgbInner palette lowByte highByte buf js
      = some (buf ++ js.map (fun j => (t.ToRgbPixel palette lowByte highByte j).getD 0)) := by
  induction js with
  | nil => intro buf; simp [HdPackTileInfo.ToRgbInner]
  | cons j js ih =>
    intro buf
    obtain ⟨v, hv⟩ := ToRgbPixel_isSome t palette lowByte highByte j hp
    simp only [HdPackTileInfo.ToRgbInner, hv, ih, List.map_cons, Option.getD_some,
      List.append_assoc, List.singleton_append]

/-- The row of eight pixels produced for row `i`. -/
theorem ToRgbOuter_eq (t : HdPackTileInfo) (palette : List Nat)
    (htd : t.TileData.length = 16) (hp : palette.length = 64) (is : List Nat)
    (his : ∀ i ∈ is, i < 8) :
    ∀ buf : List Nat, t.ToRgbOuter palette buf is
      = some (is.foldl (fun acc i => acc ++ (List.range 8).map (fun j =>
          (t.ToRgbPixel palette (t.TileData.getD i 0) (t.TileData.getD (i + 8) 0) j).getD 0))
          buf) := by
  induction is with
  | nil => intro buf; simp [HdPackTileInfo.ToRgbOuter]
  | cons i is ih =>
    intro buf
    have hi : i < 8 := his i (List.mem_cons_self _ _)
    have h1 : t.TileData[i]? = some (t.TileData.getD i 0) := by
      rw [List.getD_eq_getElem?_getD, List.getElem?_eq_getElem (by omega)]
      rfl
    have h2 : t.TileData[i + 8]? = some (t.TileData.getD (i + 8) 0) := by
      rw [List.getD_eq_getElem?_getD, List.getElem?_eq_getElem (by omega)]
      rfl
    simp only [HdPackTileInfo.ToRgbOuter, h1, h2, ToRgbInner_eq t palette _ _ hp,
      List.foldl_cons]
    exact ih (fun k hk => his k (List.mem_cons_of_mem _ hk)) _

theorem ToRgb_eq (t : HdPackTileInfo) (palette : List Nat)
    (htd : t.TileData.length = 16) (hp : palette.length = 64) :
    t.ToRgb palette = some ((List.range 64).map (fun k =>
      (t.ToRgbPixel palette (t.TileData.getD (k / 8) 0) (t.TileData.getD (k / 8 + 8) 0)
        (k % 8)).getD 0)) := by
  rw [HdPackTileInfo.ToRgb, ToRgbOuter_eq t palette htd hp (List.range 8)
    (fun i hi => List.mem_range.1 hi)]
  rfl

theorem ToRgbPixel_eq_spec (t : HdPackTileInfo) (palette : List Nat) (r c : Nat) :
    t.ToRgbPixel palette (t.TileData.getD r 0) (t.TileData.getD (r + 8) 0) c
      = specPixel t palette r c := by
  simp only [HdPackTileInfo.ToRgbPixel, specPixel, specColor, ToRgbColor_eq_spec,
    HdPackTileInfo.ToRgbPaletteIndex, beq_iff_eq]
  split_ifs with h1 h2 h3 h4 h5 <;> first | rfl | (exfalso; tauto)

/-- The buffer of `ToRgb`, its length and its entries. -/
theorem ToRgb_entries (t : HdPackTileInfo) (palette : List Nat)
    (htd : t.TileData.length = 16) (hp : palette.length = 64) :
    ∃ buf : List Nat, t.ToRgb palette = some buf ∧ buf.length = 64 ∧
      ∀ r c : Nat, r < 8 → c < 8 →
        buf[8 * r + c]?
          = t.ToRgbPixel palette (t.TileData.getD r 0) (t.TileData.getD (r + 8) 0) c := by
  refine ⟨_, ToRgb_eq t palette htd hp, by simp, fun r c hr hc => ?_⟩
  have hk : 8 * r + c < 64 := by omega
  have h1 : (8 * r + c) / 8 = r := by omega
  have h2 : (8 * r + c) % 8 = c := by omega
  obtain ⟨v, hv⟩ := ToRgbPixel_isSome t palette (t.TileData.getD r 0)
    (t.TileData.getD (r + 8) 0) c hp
  rw [List.getElem?_map, List.getElem?_range hk, Option.map_some', h1, h2, hv]
  rfl

/-- C12: for every replacement tile with sixteen tile bytes and every palette
table of 64 entries, `ToRgb` returns a buffer of exactly 64 entries, and entry
`8*r + c` is the pixel the loop body computes for row `r`, column `c`. -/
theorem C12_ToRgb_row_major (t : HdPackTileInfo) (palette : List Nat)
    (htd : t.TileData.length = 16) (hp : palette.length = 64) :
    ∃ buf : List Nat, t.ToRgb palette = some buf ∧ buf.length = 64 ∧
      ∀ r c : Nat, r < 8 → c < 8 →
        buf[8 * r + c]?
          = t.ToRgbPixel palette (t.TileData.getD r 0) (t.TileData.getD (r + 8) 0) c :=
  ToRgb_entries t palette htd hp

/-- C12 at the sprite tile `exTileSprite`: 64 entries, and the pixel of row 1,
column 2 (colour 3, selector `0x27`) is entry 10. -/
theorem C12_ToRgb_row_major_witness :
    ∃ buf : List Nat, exTileSprite.ToRgb exPalette = some buf ∧ buf.length = 64 ∧
      buf[10]? = some 0xFF000027 := by
  obtain ⟨buf, h1, h2, h3⟩ := C12_ToRgb_row_major exTileSprite exPalette (by decide) (by decide)
  exact ⟨buf, h1, h2, (h3 1 2 (by decide) (by decide)).trans (by decide)⟩

/-- C13: for every tile with sixteen tile bytes, every palette table of 64
entries and every `r`, `c` in 0..7, entry `8*r + c` of the buffer of `ToRgb`
is the documented pixel: with `color` = bit `7-c` of `TileData[r]` plus twice
bit `7-c` of `TileData[r+8]`, it is `0x00FFFFFF` (alpha zero) for a sprite
tile and colour 0, and `palette[(PaletteColors >> ((3 - color)*8)) & 0x3F]`
otherwise. -/
theorem C13_ToRgb_pixel_formula (t : HdPackTileInfo) (palette : List Nat)
    (htd : t.TileData.length = 16) (hp : palette.length = 64) :
    ∃ buf : List Nat, t.ToRgb palette = some buf ∧
      ∀ r c : Nat, r < 8 → c < 8 →
        buf[8 * r + c]? = specPixel t palette r c ∧
        (t.IsSpriteTile = true → specColor t.TileData r c = 0 →
          buf[8 * r + c]? = some 0x00FFFFFF ∧ alphaByte 0x00FFFFFF = 0) ∧
        (¬ (t.IsSpriteTile = true ∧ specColor t.TileData r c = 0) →
          buf[8 * r + c]?
            = palette[(t.PaletteColors >>> ((3 - specColor t.TileData r c) * 8)) &&& 0x3F]?) := by
  obtain ⟨buf, h1, -, h3⟩ := ToRgb_entries t palette htd hp
  refine ⟨buf, h1, fun r c hr hc => ?_⟩
  have h := (h3 r c hr hc).trans (ToRgbPixel_eq_spec t palette r c)
  refine ⟨h, fun hs h0 => ⟨?_, by decide⟩, fun hn => ?_⟩
  · rw [h]
    simp [specPixel, hs, h0]
  · rw [h]
    simp only [specPixel, hn, if_false]

/-- C13 at the sprite tile `exTileSprite`: the first three pixels of row 0
have colours 1, 2 and 0, and decode to palette entries `0x0F`, `0x16` and to
the transparent value. -/
theorem C13_ToRgb_pixel_formula_witness :
    ∃ buf : List Nat, exTileSprite.ToRgb exPalette = some buf ∧
      buf[0]? = some 0xFF00000F ∧ buf[1]? = some 0xFF000016 ∧ buf[2]? = some 0x00FFFFFF := by
  obtain ⟨buf, h1, h2⟩ := C13_ToRgb_pixel_formula exTileSprite exPalette (by decide) (by decide)
  exact ⟨buf, h1, (h2 0 0 (by decide) (by decide)).1.trans (by decide),
    (h2 0 1 (by decide) (by decide)).1.trans (by decide),
    (h2 0 2 (by decide) (by decide)).1.trans (by decide)⟩

theorem ToRgbPixel_background_mem (t : HdPackTileInfo) (palette : List Nat)
    (lowByte highByte j v : Nat) (hns : t.IsSpriteTile = false)
    (hv : t.ToRgbPixel palette lowByte highByte j = some v) : v ∈ palette := by
  simp only [HdPackTileInfo.ToRgbPixel, hns, Bool.false_eq_true, if_false] at hv
  exact List.getElem?_mem hv

/-- C14, as stated, fails: the background tile `exTileBackground` decoded with
the 64-entry table `exPaletteNoAlpha`, whose entries have alpha byte zero,
yields a buffer whose first entry is `0x808080`, with alpha byte zero. -/
theorem C14_transparent_palette_counterexample :
    exTileBackground.IsSpriteTile = false ∧ exTileBackground.TileData.length = 16 ∧
      exPaletteNoAlpha.length = 64 ∧
      exTileBackground.ToRgb exPaletteNoAlpha = some (List.replicate 64 0x808080) ∧
      (List.replicate 64 0x808080)[0]? = some 0x808080 ∧ alphaByte 0x808080 = 0 := by
  decide

/-- C14 (amended): for every tile that is not a sprite tile, with sixteen tile
bytes, and every palette table of 64 entries, every entry of the buffer of
`ToRgb` is an entry of the palette table (the transparent value is never
substituted); so if every palette entry has a non-zero alpha byte, no entry of
the buffer is transparent. -/
theorem C14_background_pixels_from_palette (t : HdPackTileInfo) (palette : List Nat)
    (hns : t.IsSpriteTile = false)
    (htd : t.TileData.length = 16) (hp : palette.length = 64) :
    ∃ buf : List Nat, t.ToRgb palette = some buf ∧
      (∀ e ∈ buf, e ∈ palette) ∧
      ((∀ p ∈ palette, alphaByte p ≠ 0) → ∀ e ∈ buf, alphaByte e ≠ 0) := by
  obtain ⟨buf, h1, h2, h3⟩ := ToRgb_entries t palette htd hp
  have hmem : ∀ e ∈ buf, e ∈ palette := by
    intro e he
    obtain ⟨k, hk, hke⟩ := List.getElem_of_mem he
    have hk64 : k < 64 := by omega
    have hidx : 8 * (k / 8) + k % 8 = k := by omega
    have h := h3 (k / 8) (k % 8) (by omega) (by omega)
    rw [hidx, List.getElem?_eq_getElem hk, hke] at h
    exact ToRgbPixel_background_mem t palette _ _ _ e hns h.symm
  exact ⟨buf, h1, hmem, fun hop e he => hop e (hmem e he)⟩

/-- C14 (amended) at the background tile `exTileBackground` and the opaque
table `exPalette`: no entry of the buffer has alpha byte zero. -/
theorem C14_background_pixels_from_palette_witness :
    ∃ buf : List Nat, exTileBackground.ToRgb exPalette = some buf ∧
      ∀ e ∈ buf, alphaByte e ≠ 0 := by
  obtain ⟨buf, h1, -, h3⟩ := C14_background_pixels_from_palette exTileBackground exPalette
    (by decide) (by decide) (by decide)
  exact ⟨buf, h1, h3 (by decide)⟩

/-- C20: for every tile with sixteen tile bytes, every `PaletteColors` and
every palette table of 64 entries, `ToRgb` returns a buffer (no lookup fails),
and for all `i`, `j` in 0..7 the indices `i` and `i + 8` lie inside `TileData`,
the colour is at most 3, the shift amount `(3 - color) * 8` is 0, 8, 16 or 24,
and the palette index lies inside the palette table. -/
theorem C20_ToRgb_indices_in_range (t : HdPackTileInfo) (palette : List Nat)
    (htd : t.TileData.length = 16) (hp : palette.length = 64) :
    (t.ToRgb palette).isSome = true ∧
      ∀ i j : Nat, i < 8 → j < 8 →
        i < t.TileData.length ∧ i + 8 < t.TileData.length ∧
        HdPackTileInfo.ToRgbColor (t.TileData.getD i 0) (t.TileData.getD (i + 8) 0) j ≤ 3 ∧
        ((3 - HdPackTileInfo.ToRgbColor (t.TileData.getD i 0)
            (t.TileData.getD (i + 8) 0) j) * 8 ∈ [0, 8, 16, 24]) ∧
        t.ToRgbPaletteIndex (HdPackTileInfo.ToRgbColor (t.TileData.getD i 0)
            (t.TileData.getD (i + 8) 0) j) < palette.length ∧
        (t.ToRgbPixel palette (t.TileData.getD i 0) (t.TileData.getD (i + 8) 0) j).isSome
          = true := by
  obtain ⟨buf, h1, -, -⟩ := ToRgb_entries t palette htd hp
  refine ⟨by rw [h1]; rfl, fun i j hi hj => ?_⟩
  have hc := ToRgbColor_le (t.TileData.getD i 0) (t.TileData.getD (i + 8) 0) j
  obtain ⟨v, hv⟩ := ToRgbPixel_isSome t palette (t.TileData.getD i 0)
    (t.TileData.getD (i + 8) 0) j hp
  refine ⟨by omega, by omega, hc, ?_, ?_, by rw [hv]; rfl⟩
  · generalize HdPackTileInfo.ToRgbColor (t.TileData.getD i 0)
      (t.TileData.getD (i + 8) 0) j = color at hc
    interval_cases color <;> decide
  · rw [hp]
    exact ToRgbPaletteIndex_lt t _

/-- C20 at the sprite tile `exTileSprite` and the table `exPalette`. -/
theorem C20_ToRgb_indices_in_range_witness :
    (exTileSprite.ToRgb exPalette).isSome = true ∧
      exTileSprite.ToRgbPaletteIndex (HdPackTileInfo.ToRgbColor 0x60 0x20 2) = 0x27 :=
  ⟨(C20_ToRgb_indices_in_range exTileSprite exPalette (by decide) (by decide)).1, by decide⟩

/-! ## Replacement tiles: blank detection -/

theorem UpdateBlankTileFlagLoop_eq (data : List Nat) (is : List Nat)
    (his : ∀ i ∈ is, i < data.length) :
    HdPackTileInfo.UpdateBlankTileFlagLoop data is
      = some (decide (∀ i ∈ is, data[i]? = data[0]?)) := by
  induction is with
  | nil => simp [HdPackTileInfo.UpdateBlankTileFlagLoop]
  | cons i is ih =>
    have hi : i < data.length := his i (List.mem_cons_self _ _)
    have h0 : 0 < data.length := by omega
    have ih2 := ih (fun k hk => his k (List.mem_cons_of_mem _ hk))
    simp only [HdPackTileInfo.UpdateBlankTileFlagLoop, List.getElem?_eq_getElem hi,
      List.getElem?_eq_getElem h0, ih2, List.mem_cons, forall_eq_or_imp, Option.some.injEq,
      bne_iff_ne, ne_eq, ite_not]
    by_cases h : data[i] = data[0] <;> simp [h]

theorem all_equal_first_iff (data : List Nat) :
    (∀ i ∈ List.range data.length, data[i]? = data[0]?) ↔ ∀ v ∈ data, data[0]? = some v := by
  constructor
  · intro h v hv
    obtain ⟨k, hk, hkv⟩ := List.getElem_of_mem hv
    rw [← h k (List.mem_range.2 hk), List.getElem?_eq_getElem hk, hkv]
  · intro h i hi
    have hi2 := List.mem_range.1 hi
    rw [h _ (List.getElem_mem hi2), List.getElem?_eq_getElem hi2]

theorem UpdateBlankTileFlag_eq (t : HdPackTileInfo) :
    t.UpdateBlankTileFlag
      = some { t with Blank := decide (∀ v ∈ t.HdTileData, t.HdTileData[0]? = some v) } := by
  simp only [HdPackTileInfo.UpdateBlankTileFlag,
    UpdateBlankTileFlagLoop_eq t.HdTileData _ (fun i hi => List.mem_range.1 hi),
    all_equal_first_iff]

/-- C15: after `UpdateBlankTileFlag` the tile is unchanged except for `Blank`,
which is true iff every element of `HdTileData` equals `HdTileData[0]`; it is
true for an empty and for a single-element buffer and for 64 identical
entries, false for 64 entries one of which differs from the others; the
previous value of `Blank` has no influence. -/
theorem C15_UpdateBlankTileFlag (t : HdPackTileInfo) :
    t.UpdateBlankTileFlag
        = some { t with Blank := decide (∀ v ∈ t.HdTileData, t.HdTileData[0]? = some v) } ∧
      (∀ b : Bool, HdPackTileInfo.UpdateBlankTileFlag { t with Blank := b }
        = t.UpdateBlankTileFlag) ∧
      HdPackTileInfo.UpdateBlankTileFlag { t with HdTileData := [] }
        = some { t with HdTileData := [], Blank := true } ∧
      (∀ v : Nat, HdPackTileInfo.UpdateBlankTileFlag { t with HdTileData := [v] }
        = some { t with HdTileData := [v], Blank := true }) ∧
      (∀ v : Nat, HdPackTileInfo.UpdateBlankTileFlag { t with HdTileData := List.replicate 64 v }
        = some { t with HdTileData := List.replicate 64 v, Blank := true }) ∧
      (∀ v w k : Nat, k < 64 → w ≠ v →
        HdPackTileInfo.UpdateBlankTileFlag
            { t with HdTileData := (List.replicate 64 v).set k w }
          = some { t with HdTileData := (List.replicate 64 v).set k w, Blank := false }) := by
  refine ⟨UpdateBlankTileFlag_eq t, fun b => ?_, ?_, fun v => ?_, fun v => ?_,
    fun v w k hk hw => ?_⟩
  · rw [UpdateBlankTileFlag_eq, UpdateBlankTileFlag_eq]
  · rw [UpdateBlankTileFlag_eq]
    simp
  · rw [UpdateBlankTileFlag_eq]
    simp
  · rw [UpdateBlankTileFlag_eq]
    have h : ∀ u ∈ List.replicate 64 v, (List.replicate 64 v)[0]? = some u := by
      intro u hu
      rw [List.eq_of_mem_replicate hu]
      rfl
    rw [decide_eq_true h]
  · rw [UpdateBlankTileFlag_eq]
    have h : ¬ ∀ u ∈ (List.replicate 64 v).set k w,
        ((List.replicate 64 v).set k w)[0]? = some u := by
      intro hall
      have hlen : ((List.replicate 64 v).set k w).length = 64 := by simp
      have hw2 : w ∈ (List.replicate 64 v).set k w := by
        apply List.mem_iff_getElem?.2
        exact ⟨k, List.getElem?_set_self (by simpa using hk)⟩
      have hv2 : ∀ m : Nat, m < 64 → m ≠ k → v ∈ (List.replicate 64 v).set k w := by
        intro m hm hmk
        apply List.mem_iff_getElem?.2
        refine ⟨m, ?_⟩
        rw [List.getElem?_set_ne (Ne.symm hmk), List.getElem?_replicate]
        simp [hm]
      have hv3 : v ∈ (List.replicate 64 v).set k w := by
        by_cases hk0 : k = 0
        · exact hv2 1 (by norm_num) (by omega)
        · exact hv2 0 (by norm_num) (by omega)
      have e1 := hall w hw2
      have e2 := hall v hv3
      rw [e1] at e2
      exact hw (Option.some.inj e2)
    rw [decide_eq_false h]

/-- C15 at 64 identical pixels (previous flag false) and at 64 pixels of
which the last differs (previous flag true). -/
theorem C15_UpdateBlankTileFlag_witness :
    exTileUniform.UpdateBlankTileFlag = some { exTileUniform with Blank := true } ∧
      exTileOneOff.UpdateBlankTileFlag = some { exTileOneOff with Blank := false } :=
  ⟨(C15_UpdateBlankTileFlag exTileUniform).1.trans (by decide),
    (C15_UpdateBlankTileFlag exTileOneOff).1.trans (by decide)⟩

/-! ## The pack and the global palette table -/

/-- C16: with the global palette table as explicit state, destroying an
`HdPackData` whose `PaletteBackup` holds exactly 64 entries leaves the table
equal to `PaletteBackup`; for any other length the table is unchanged (so the
table is written only if the length is 64). -/
theorem C16_destructor_restores_palette (d : HdPackData) (rgbPalette : List Nat) :
    (d.PaletteBackup.length = 64 → d.destructor rgbPalette = d.PaletteBackup) ∧
      (d.PaletteBackup.length ≠ 64 → d.destructor rgbPalette = rgbPalette) ∧
      (d.destructor rgbPalette ≠ rgbPalette → d.PaletteBackup.length = 64) := by
  refine ⟨fun h => ?_, fun h => ?_, fun h => ?_⟩
  · simp only [HdPackData.destructor, h, if_true, SetRgbPalette]
    exact List.take_of_length_le (by omega)
  · simp only [HdPackData.destructor, h, if_false]
  · by_contra hn
    exact h (by simp only [HdPackData.destructor, hn, if_false])

/-- C16 at a pack that captured `exPalette` and at a pack that captured nothing. -/
theorem C16_destructor_restores_palette_witness :
    exPackWithBackup.destructor exPaletteNoAlpha = exPalette ∧
      exPackNoBackup.destructor exPaletteNoAlpha = exPaletteNoAlpha :=
  ⟨(C16_destructor_restores_palette exPackWithBackup exPaletteNoAlpha).1 (by decide),
    (C16_destructor_restores_palette exPackNoBackup exPaletteNoAlpha).2.1 (by decide)⟩

/-! ## Textual form of a condition -/

/-- C17 fails on the code for a bitmap target: the record of
`exCondNearbyBitmap` (`TileIndex = -1`, name without comma) has its 32-digit
dump followed by the palette digits without a comma, that is five fields,
whereas the record of the index target `exCondNearbyIndex` has six. -/
theorem C17_bitmap_target_lacks_separator :
    exCondNearbyBitmap.TileIndex < 0 ∧
      exCondNearbyBitmap.ToString
        = "<condition>c,tileNearby,1,1,0102030405060708090A0B0C0D0E0F1012345678" ∧
      conditionFields exCondNearbyBitmap.ToString = 5 ∧
      exCondNearbyIndex.ToString = "<condition>c,tileNearby,1,1,7,12345678" ∧
      conditionFields exCondNearbyIndex.ToString = 6 := by
  decide

/-! ## Out-of-range target positions -/

/-- An index below 0 or above `PixelCount` is rejected by the range test. -/
theorem CheckCondition_index_rejected (c : HdPackCondition) (grid : List HdPpuPixelInfo)
    (x y : Int) (h : c.pixelIndex x y < 0 ∨ c.pixelIndex x y > (PixelCount : Int)) :
    c.CheckCondition grid x y = some false := by
  rcases hk : c.CondType with _ | _ | _ | _ <;>
    simp only [HdPackCondition.pixelIndex, hk] at h <;>
    simp [HdPackCondition.CheckCondition, hk, h]

theorem pixelIndex_eq_linear (c : HdPackCondition) (x y : Int)
    (h1 : -8388608 ≤ c.targetRow y) (h2 : c.targetRow y < 8388608)
    (h3 : 0 ≤ c.targetColumn x) (h4 : c.targetColumn x ≤ 255) :
    c.pixelIndex x y = c.targetRow y * 256 + c.targetColumn x := by
  rcases hk : c.CondType with _ | _ | _ | _ <;>
    simp only [HdPackCondition.pixelIndex, HdPackCondition.targetRow,
      HdPackCondition.targetColumn, HdPackCondition.absoluteIndex,
      HdPackCondition.nearbyIndex, i32, hk] at h1 h2 h3 h4 ⊢ <;>
    omega

/-- C18, as stated, fails: the condition `exCondColumn261` targets column 261,
outside 0..255, of row 2; its index 2*256 + 261 = 773 is that of row 3,
column 5, and `CheckCondition` returns true on `exGrid`. -/
theorem C18_column_wraps_counterexample :
    exCondColumn261.targetColumn 0 = 261 ∧ exCondColumn261.targetRow 0 = 2 ∧
      exCondColumn261.pixelIndex 0 0 = 773 ∧
      exCondColumn261.CheckCondition exGrid 0 0 = some true :=
  ⟨by decide, by decide, by decide,
    CheckCondition_absolute_eval exCondColumn261 exGrid 0 0 773 exPixelSeven (Or.inl rfl)
      (by decide) (by decide) exGrid_at_773⟩

/-- C18 (amended): for every condition, grid and render position, if the index
computed from the target position is negative or greater than `PixelCount`,
`CheckCondition` returns false whatever the grid contains; this is the case
when the target column lies in 0..255 and the target row (of absolute value
below `2^23`) is negative, above 240, or 240 with a column other than 0. -/
theorem C18_index_out_of_range_is_false (c : HdPackCondition) (grid : List HdPpuPixelInfo)
    (x y : Int) :
    (c.pixelIndex x y < 0 ∨ c.pixelIndex x y > (PixelCount : Int) →
        c.CheckCondition grid x y = some false) ∧
      (0 ≤ c.targetColumn x → c.targetColumn x ≤ 255 →
        -8388608 ≤ c.targetRow y → c.targetRow y < 8388608 →
        (c.targetRow y < 0 ∨ 240 < c.targetRow y ∨
          (c.targetRow y = 240 ∧ 0 < c.targetColumn x)) →
        c.CheckCondition grid x y = some false) := by
  refine ⟨CheckCondition_index_rejected c grid x y, fun h3 h4 h1 h2 h => ?_⟩
  apply CheckCondition_index_rejected
  rw [pixelIndex_eq_linear c x y h1 h2 h3 h4]
  simp only [PixelCount]
  omega

/-- C18 (amended) at row 241, column 5 of any grid, and one row above the
screen for a relative condition. -/
theorem C18_index_out_of_range_is_false_witness :
    exCondRow241.CheckCondition exGrid 0 0 = some false ∧
      exCondBelow.CheckCondition [] 7 (-2) = some false :=
  ⟨(C18_index_out_of_range_is_false exCondRow241 exGrid 0 0).2 (by decide) (by decide)
      (by decide) (by decide) (by decide),
    (C18_index_out_of_range_is_false exCondBelow [] 7 (-2)).1 (by decide)⟩

/-! ## Symmetry of key equality -/

/-- C19, as stated, fails: the dynamic key `exKeyDynamic` (index 1) compares
equal to the static key `exKeyStaticTwo` (index 2, same palette and tile
bytes), and `exKeyStaticTwo` does not compare equal to `exKeyDynamic`. -/
theorem C19_mixed_flags_counterexample :
    exKeyDynamic.WF ∧ exKeyStaticTwo.WF ∧
      exKeyDynamic.IsChrRamTile ≠ exKeyStaticTwo.IsChrRamTile ∧
      exKeyDynamic.operatorEq exKeyStaticTwo = true ∧
      exKeyStaticTwo.operatorEq exKeyDynamic = false := by
  decide

/-- C19 (amended): for all tile keys `a` and `b` with the same `IsChrRamTile`
flag, `a == b` holds if and only if `b == a`. -/
theorem C19_equality_symmetric_same_flag (a b : HdTileKey)
    (hf : a.IsChrRamTile = b.IsChrRamTile) :
    a.operatorEq b = true ↔ b.operatorEq a = true := by
  cases hb : b.IsChrRamTile <;>
    simp only [HdTileKey.operatorEq, hf, hb, memcmpIsZero, beq_iff_eq, decide_eq_true_eq,
      Bool.false_eq_true, if_false, if_true] <;>
    exact eq_comm

/-- C19 (amended) at two static keys that differ in their tile bytes only. -/
theorem C19_equality_symmetric_same_flag_witness :
    exKeySevenOther.operatorEq exKeySeven = true :=
  (C19_equality_symmetric_same_flag exKeySeven exKeySevenOther rfl).1 (by decide)

end HdData
